import Mathlib

/-!
Verification of the Disk identity-and-description layer of the
DiskArbitration daemon (`diskarbitrationd/DADisk.c`).

The embedding models CoreFoundation values as the inductive `CFValue`
(the value kinds the code manipulates: booleans, numbers, strings, URLs,
byte blobs and dictionaries), CF dictionaries as ordered association
lists (`CFDict`), and the `struct __DADisk` record as the `Disk`
structure.  External collaborators (the IOKit registry, `statfs`,
`getpwuid`, `CFHashBytes`, `_DASerializeDiskDescription`,
`IOServiceMatchPropertyTable`) are supplied as explicit environment
records or function parameters, so every function of the source file
becomes a pure, executable Lean function.
-/

set_option maxHeartbeats 2000000

namespace DiskArbitration

/-! ## CoreFoundation value model -/

mutual

/-- A CoreFoundation object as used by `DADisk.c`: `CFBoolean`,
`CFNumber`, `CFString`, `CFURL`, `CFData` (a byte blob, each byte a
`Nat`), or a `CFDictionary` with string keys. -/
inductive CFValue where
  | boolean : Bool → CFValue
  | number : Int → CFValue
  | string : String → CFValue
  | url : String → CFValue
  | data : List Nat → CFValue
  | dict : CFDict → CFValue

/-- A `CFDictionary` with string keys, modelled as an ordered
association list. -/
inductive CFDict where
  | nil : CFDict
  | cons : String → CFValue → CFDict → CFDict

end

mutual

/-- Structural equality of CF objects (`CFEqual`). -/
def CFValue.beq : CFValue → CFValue → Bool
  | .boolean a, .boolean b => a == b
  | .number a, .number b => a == b
  | .string a, .string b => a == b
  | .url a, .url b => a == b
  | .data a, .data b => a == b
  | .dict a, .dict b => CFDict.beq a b
  | _, _ => false

/-- Structural equality of CF dictionaries (`CFEqual`). -/
def CFDict.beq : CFDict → CFDict → Bool
  | .nil, .nil => true
  | .cons k v r, .cons k2 v2 r2 => k == k2 && CFValue.beq v v2 && CFDict.beq r r2
  | _, _ => false

end

mutual

theorem CFValue.beq_iff_val : ∀ a b : CFValue, CFValue.beq a b = true ↔ a = b
  | .boolean _, .boolean _ => by simp [CFValue.beq]
  | .number _, .number _ => by simp [CFValue.beq]
  | .string _, .string _ => by simp [CFValue.beq]
  | .url _, .url _ => by simp [CFValue.beq]
  | .data _, .data _ => by simp [CFValue.beq]
  | .dict a, .dict b => by simp [CFValue.beq, CFDict.beq_iff_dict a b]
  | .boolean _, .number _ => by simp [CFValue.beq]
  | .boolean _, .string _ => by simp [CFValue.beq]
  | .boolean _, .url _ => by simp [CFValue.beq]
  | .boolean _, .data _ => by simp [CFValue.beq]
  | .boolean _, .dict _ => by simp [CFValue.beq]
  | .number _, .boolean _ => by simp [CFValue.beq]
  | .number _, .string _ => by simp [CFValue.beq]
  | .number _, .url _ => by simp [CFValue.beq]
  | .number _, .data _ => by simp [CFValue.beq]
  | .number _, .dict _ => by simp [CFValue.beq]
  | .string _, .boolean _ => by simp [CFValue.beq]
  | .string _, .number _ => by simp [CFValue.beq]
  | .string _, .url _ => by simp [CFValue.beq]
  | .string _, .data _ => by simp [CFValue.beq]
  | .string _, .dict _ => by simp [CFValue.beq]
  | .url _, .boolean _ => by simp [CFValue.beq]
  | .url _, .number _ => by simp [CFValue.beq]
  | .url _, .string _ => by simp [CFValue.beq]
  | .url _, .data _ => by simp [CFValue.beq]
  | .url _, .dict _ => by simp [CFValue.beq]
  | .data _, .boolean _ => by simp [CFValue.beq]
  | .data _, .number _ => by simp [CFValue.beq]
  | .data _, .string _ => by simp [CFValue.beq]
  | .data _, .url _ => by simp [CFValue.beq]
  | .data _, .dict _ => by simp [CFValue.beq]
  | .dict _, .boolean _ => by simp [CFValue.beq]
  | .dict _, .number _ => by simp [CFValue.beq]
  | .dict _, .string _ => by simp [CFValue.beq]
  | .dict _, .url _ => by simp [CFValue.beq]
  | .dict _, .data _ => by simp [CFValue.beq]

theorem CFDict.beq_iff_dict : ∀ a b : CFDict, CFDict.beq a b = true ↔ a = b
  | .nil, .nil => by simp [CFDict.beq]
  | .nil, .cons _ _ _ => by simp [CFDict.beq]
  | .cons _ _ _, .nil => by simp [CFDict.beq]
  | .cons k v r, .cons k2 v2 r2 => by
      simp [CFDict.beq, CFValue.beq_iff_val v v2, CFDict.beq_iff_dict r r2, and_assoc]

end

instance : DecidableEq CFValue := fun a b =>
  decidable_of_iff (CFValue.beq a b = true) (CFValue.beq_iff_val a b)

instance : DecidableEq CFDict := fun a b =>
  decidable_of_iff (CFDict.beq a b = true) (CFDict.beq_iff_dict a b)

/-- `CFDictionaryGetValue`. -/
def CFDict.getValue (k : String) : CFDict → Option CFValue
  | .nil => none
  | .cons k2 v r => if k2 = k then some v else CFDict.getValue k r

/-- `CFDictionarySetValue`: replace the value of an existing key in
place, or append a new entry. -/
def CFDict.setValue (k : String) (v : CFValue) : CFDict → CFDict
  | .nil => .cons k v .nil
  | .cons k2 v2 r => if k2 = k then .cons k2 v r else .cons k2 v2 (CFDict.setValue k v r)

/-- `CFDictionaryRemoveValue`. -/
def CFDict.removeValue (k : String) : CFDict → CFDict
  | .nil => .nil
  | .cons k2 v2 r => if k2 = k then r else .cons k2 v2 (CFDict.removeValue k r)

/-- The entries of a dictionary as a list of key/value pairs. -/
def CFDict.toList : CFDict → List (String × CFValue)
  | .nil => []
  | .cons k v r => (k, v) :: CFDict.toList r

/-- `CFDictionaryApplyFunction` specialised to an all-entries boolean
test: `true` exactly when `p` holds of every entry. -/
def CFDict.all (p : String → CFValue → Bool) : CFDict → Bool
  | .nil => true
  | .cons k v r => p k v && CFDict.all p r

@[simp]
theorem CFDict.getValue_setValue_self :
    ∀ (k : String) (v : CFValue) (d : CFDict), (d.setValue k v).getValue k = some v
  | k, v, .nil => by simp [CFDict.setValue, CFDict.getValue]
  | k, v, .cons k2 v2 r => by
      by_cases h : k2 = k <;>
        simp [CFDict.setValue, CFDict.getValue, h, CFDict.getValue_setValue_self k v r]

@[simp]
theorem CFDict.getValue_setValue_ne :
    ∀ (k k2 : String) (v : CFValue) (d : CFDict), k2 ≠ k →
      (d.setValue k2 v).getValue k = d.getValue k
  | k, k2, v, .nil, h => by simp [CFDict.setValue, CFDict.getValue, h]
  | k, k2, v, .cons k3 v3 r, h => by
      by_cases h3 : k3 = k2 <;> by_cases h4 : k3 = k <;>
        simp_all [CFDict.setValue, CFDict.getValue,
          CFDict.getValue_setValue_ne k k2 v r h]

theorem CFDict.all_iff (p : String → CFValue → Bool) :
    ∀ d : CFDict, d.all p = true ↔ ∀ kv ∈ d.toList, p kv.1 kv.2 = true
  | .nil => by simp [CFDict.all, CFDict.toList]
  | .cons k v r => by simp [CFDict.all, CFDict.toList, CFDict.all_iff p r]

/-! ## Option and state flags

The numeric values of the `kDADiskOption…` and `kDADiskState…` bitmask
constants live in `DADisk.h`, which is not part of the sources at hand;
the bits are pairwise distinct there, so the two masks are modelled as
sets (lists queried by membership) of the named flags that `DADisk.c`
manipulates.  `DADiskGetOption`/`DADiskGetState` test membership just
as the C tests the bit. -/

/-- The option flags of `disk->_options` set by `DADisk.c`. -/
inductive DADiskOptionFlag where
  | kDADiskOptionMountAutomatic : DADiskOptionFlag
  | kDADiskOptionMountAutomaticNoDefer : DADiskOptionFlag
  | kDADiskOptionEjectUponLogout : DADiskOptionFlag
  deriving DecidableEq

/-- The staging flags of `disk->_state` set by `DADisk.c`. -/
inductive DADiskStateFlag where
  | kDADiskStateStagedProbe : DADiskStateFlag
  | kDADiskStateStagedPeek : DADiskStateFlag
  | kDADiskStateStagedRepair : DADiskStateFlag
  | kDADiskStateStagedApprove : DADiskStateFlag
  | kDADiskStateStagedAuthorize : DADiskStateFlag
  | kDADiskStateStagedMount : DADiskStateFlag
  deriving DecidableEq

/-! ## The Disk entity

`struct __DADisk`.  The opaque runtime handles that no claim observes
(`_base`, `_claim`, `_context`, `_contextRe`, `_filesystem`, and the
`_media` registry handle, which is consulted only through the
`IOServiceMatchPropertyTable` collaborator) are omitted; every field a
claim observes is carried.  `_id` is the `char *` id held as its byte
sequence; uid/gid/mode values are integers. -/

structure Disk where
  _bypath : Option String
  _description : CFDict
  _device : Option String
  _deviceNode : Int
  _devicePath0 : Option String
  _devicePath1 : Option String
  _deviceUnit : Int
  _id : List Nat
  _mode : Int
  _options : List DADiskOptionFlag
  _serialization : Option (List Nat)
  _state : List DADiskStateFlag
  _userEGID : Int
  _userEUID : Int
  _userRGID : Int
  _userRUID : Int
  deriving DecidableEq

/-- The `CFDictionarySetValue( disk->_description, key, value )` idiom
of the builders: update only the description of a disk. -/
def Disk.setDesc (disk : Disk) (key : String) (value : CFValue) : Disk :=
  { disk with _description := disk._description.setValue key value }

/-- `___UID_ROOT` (DABase.h): the administrative default user. -/
def ___UID_ROOT : Int := 0

/-- `___GID_ADMIN` (DABase.h): the administrative default group. -/
def ___GID_ADMIN : Int := 80

/-- `___UID_UNKNOWN` (DABase.h): the unknown-identity user. -/
def ___UID_UNKNOWN : Int := 99

/-- `___GID_UNKNOWN` (DABase.h): the unknown-identity group. -/
def ___GID_UNKNOWN : Int := 99

/-- `_PATH_DEV` from `<paths.h>`. -/
def _PATH_DEV : String := "/dev/"

/-- `_kDADiskIDKey` (DAInternal.h): the description key holding the id
bytes. -/
def _kDADiskIDKey : String := "DADiskID"

/-- The UTF-8 encoding of one code point. -/
def utf8Bytes (c : Nat) : List Nat :=
  if c < 0x80 then [c]
  else if c < 0x800 then
    [0xC0 ||| (c >>> 6), 0x80 ||| (c &&& 0x3F)]
  else if c < 0x10000 then
    [0xE0 ||| (c >>> 12), 0x80 ||| ((c >>> 6) &&& 0x3F), 0x80 ||| (c &&& 0x3F)]
  else
    [0xF0 ||| (c >>> 18), 0x80 ||| ((c >>> 12) &&& 0x3F),
      0x80 ||| ((c >>> 6) &&& 0x3F), 0x80 ||| (c &&& 0x3F)]

/-- The byte sequence of a C string (its UTF-8 bytes, without the NUL
terminator). -/
def cstr (s : String) : List Nat :=
  s.data.flatMap (fun c => utf8Bytes c.toNat)

/-- `__DADiskCreate`: a fresh disk with the administrative security
defaults, mode `0755`, empty masks, no cache, and the id bytes
(including the NUL terminator, per `strlen(id) + 1`) recorded in the
description under `_kDADiskIDKey`. -/
def __DADiskCreate (id : List Nat) : Disk :=
  let disk : Disk :=
    { _bypath := none
      _description := CFDict.nil
      _device := none
      _deviceNode := 0
      _devicePath0 := none
      _devicePath1 := none
      _deviceUnit := -1
      _id := id
      _mode := 0o755
      _options := []
      _serialization := none
      _state := []
      _userEGID := ___GID_ADMIN
      _userEUID := ___UID_ROOT
      _userRGID := ___GID_ADMIN
      _userRUID := ___UID_ROOT }
  { disk with
      _description := disk._description.setValue _kDADiskIDKey (.data (id ++ [0])) }

/-! ## Equality and hashing (`__DADiskEqual`, `__DADiskHash`) -/

/-- C `strcmp` on NUL-free byte sequences: `0` at the common end,
otherwise the difference at the first disagreement (at the end of the
shorter string the terminating NUL, value `0`, stands against the other
byte). -/
def strcmp : List Nat → List Nat → Int
  | [], [] => 0
  | [], b :: _ => 0 - Int.ofNat b
  | a :: _, [] => Int.ofNat a
  | a :: as, b :: bs => if a = b then strcmp as bs else Int.ofNat a - Int.ofNat b

/-- `__DADiskEqual`: `strcmp( disk1->_id, disk2->_id ) == 0`. -/
def __DADiskEqual (disk1 disk2 : Disk) : Bool :=
  strcmp disk1._id disk2._id == 0

/-- `__DADiskHash`: `CFHashBytes( disk->_id, MIN( strlen( disk->_id ), 16 ) )`,
with the external `CFHashBytes` passed in as a function of the hashed
byte sequence. -/
def __DADiskHash (CFHashBytes : List Nat → Nat) (disk : Disk) : Nat :=
  CFHashBytes (disk._id.take (min disk._id.length 16))

theorem strcmp_eq_zero_iff (a b : List Nat) (ha : 0 ∉ a) (hb : 0 ∉ b) :
    strcmp a b = 0 ↔ a = b := by
  induction a generalizing b with
  | nil =>
      cases b with
      | nil => simp [strcmp]
      | cons x xs =>
          have hx : x ≠ 0 := fun h => hb (by simp [h])
          simp [strcmp]
          omega
  | cons x xs ih =>
      cases b with
      | nil =>
          have hx : x ≠ 0 := fun h => ha (by simp [h])
          simp [strcmp]
          omega
      | cons y ys =>
          have ha2 : 0 ∉ xs := fun h => ha (List.mem_cons_of_mem _ h)
          have hb2 : 0 ∉ ys := fun h => hb (List.mem_cons_of_mem _ h)
          by_cases hxy : x = y
          · simp [strcmp, hxy, ih ys ha2 hb2]
          · simp [strcmp, hxy]
            omega

/-! ## Description mutation and the serialization cache -/

/-- `DADiskGetDescription`. -/
def DADiskGetDescription (disk : Disk) (description : String) : Option CFValue :=
  disk._description.getValue description

/-- `DADiskSetDescription`: set the key (non-NULL value) or remove it
(NULL value), then release any cached serialization. -/
def DADiskSetDescription (disk : Disk) (description : String) (value : Option CFValue) : Disk :=
  let disk :=
    match value with
    | some v => disk.setDesc description v
    | none => { disk with _description := disk._description.removeValue description }
  { disk with _serialization := none }

/-- `DADiskGetSerialization`: compute and cache
`_DASerializeDiskDescription( …, disk->_description )` when no cache is
present, then return the cached value.  The serializer is the external
collaborator, passed as a function; the mutated disk is returned
alongside the result. -/
def DADiskGetSerialization (_DASerializeDiskDescription : CFDict → List Nat)
    (disk : Disk) : Disk × List Nat :=
  match disk._serialization with
  | some s => (disk, s)
  | none =>
      let s := _DASerializeDiskDescription disk._description
      ({ disk with _serialization := some s }, s)

/-- The cache invariant: the serialization cache is either absent or an
exact encoding of the current description. -/
def SerializationCacheExact (_DASerializeDiskDescription : CFDict → List Nat)
    (disk : Disk) : Prop :=
  ∀ s, disk._serialization = some s → s = _DASerializeDiskDescription disk._description

/-! ## Match evaluation (`__DADiskMatch`, `DADiskMatch`) -/

/-- `kIOPropertyMatchKey` from IOKit. -/
def kIOPropertyMatchKey : String := "IOPropertyMatch"

/-- One step of `__DADiskMatch` for the entry `(key, value)` of the
match dictionary: look up `key` in the disk's own description; for the
special `kIOPropertyMatchKey`, hand that stored value (possibly absent)
to the live registry predicate `IOServiceMatchPropertyTable` (a
collaborator on `disk->_media`, passed as a function); for any other
key, `CFEqual` the match value against the stored value, failing when
the key is absent. -/
def __DADiskMatchOne (IOServiceMatchPropertyTable : Option CFValue → Bool)
    (disk : Disk) (key : String) (value : CFValue) : Bool :=
  let compare := disk._description.getValue key
  if key = kIOPropertyMatchKey then
    IOServiceMatchPropertyTable compare
  else
    match compare with
    | none => false
    | some c => CFValue.beq value c

/-- `DADiskMatch`: apply `__DADiskMatch` over every entry of the match
dictionary; the context pointer survives (and the result is `TRUE`)
exactly when every entry matched. -/
def DADiskMatch (IOServiceMatchPropertyTable : Option CFValue → Bool)
    (disk : Disk) (match0 : CFDict) : Bool :=
  match0.all (__DADiskMatchOne IOServiceMatchPropertyTable disk)

/-! ## IOKit and DiskArbitration property keys

String values of the IOKit keys (from the IOKit headers) and of the
`kDADiskDescription…Key` constants (from `DADisk.h`/`DAInternal.h`,
outside the sources at hand; the published DiskArbitration values are
used).  The claims depend only on the keys being what the code writes
and reads, pairwise distinct where distinct. -/

def kIOBSDNameKey : String := "BSD Name"

def kIOMediaPreferredBlockSizeKey : String := "Preferred Block Size"

def kIOBSDMajorKey : String := "BSD Major"

def kIOBSDMinorKey : String := "BSD Minor"

def kIOBSDUnitKey : String := "BSD Unit"

def kIOMediaContentKey : String := "Content"

def kIOMediaEjectableKey : String := "Ejectable"

def kIOMediaIconKey : String := "IOMediaIcon"

def kIODVDMediaClass : String := "IODVDMedia"

def kIOCDMediaClass : String := "IOCDMedia"

def kIOMediaClass : String := "IOMedia"

def kIODVDMediaTypeKey : String := "Type"

def kIOCDMediaTypeKey : String := "Type"

def kIOMediaLeafKey : String := "Leaf"

def kIOMediaRemovableKey : String := "Removable"

def kIOMediaSizeKey : String := "Size"

def kIOMediaWholeKey : String := "Whole"

def kIOMediaWritableKey : String := "Writable"

def kIOPropertyProtocolCharacteristicsKey : String := "Protocol Characteristics"

def kIOPropertyPhysicalInterconnectLocationKey : String := "Physical Interconnect Location"

def kIOPropertyInternalKey : String := "Internal"

def kIOPropertyExternalKey : String := "External"

def kIOPropertyPhysicalInterconnectTypeKey : String := "Physical Interconnect"

def kIOPropertyDeviceCharacteristicsKey : String := "Device Characteristics"

def kIOPropertyProductNameKey : String := "Product Name"

def kIOPropertyProductRevisionLevelKey : String := "Product Revision Level"

def kIOPropertyVendorNameKey : String := "Vendor Name"

def kDADiskDescriptionVolumeNetworkKey : String := "DAVolumeNetwork"

def kDADiskDescriptionVolumeMountableKey : String := "DAVolumeMountable"

def kDADiskDescriptionVolumePathKey : String := "DAVolumePath"

def kDADiskDescriptionMediaBlockSizeKey : String := "DAMediaBlockSize"

def kDADiskDescriptionMediaBSDNameKey : String := "DAMediaBSDName"

def kDADiskDescriptionMediaBSDMajorKey : String := "DAMediaBSDMajor"

def kDADiskDescriptionMediaBSDMinorKey : String := "DAMediaBSDMinor"

def kDADiskDescriptionMediaBSDUnitKey : String := "DAMediaBSDUnit"

def kDADiskDescriptionMediaContentKey : String := "DAMediaContent"

def kDADiskDescriptionMediaEjectableKey : String := "DAMediaEjectable"

def kDADiskDescriptionMediaIconKey : String := "DAMediaIcon"

def kDADiskDescriptionMediaKindKey : String := "DAMediaKind"

def kDADiskDescriptionMediaTypeKey : String := "DAMediaType"

def kDADiskDescriptionMediaLeafKey : String := "DAMediaLeaf"

def kDADiskDescriptionMediaNameKey : String := "DAMediaName"

def kDADiskDescriptionMediaPathKey : String := "DAMediaPath"

def kDADiskDescriptionMediaRemovableKey : String := "DAMediaRemovable"

def kDADiskDescriptionMediaSizeKey : String := "DAMediaSize"

def kDADiskDescriptionMediaWholeKey : String := "DAMediaWhole"

def kDADiskDescriptionMediaWritableKey : String := "DAMediaWritable"

def kDADiskDescriptionDeviceInternalKey : String := "DADeviceInternal"

def kDADiskDescriptionDeviceProtocolKey : String := "DADeviceProtocol"

def kDADiskDescriptionDeviceModelKey : String := "DADeviceModel"

def kDADiskDescriptionDeviceRevisionKey : String := "DADeviceRevision"

def kDADiskDescriptionDeviceVendorKey : String := "DADeviceVendor"

def kDADiskDescriptionDevicePathKey : String := "DADevicePath"

def kDADiskDescriptionDeviceUnitKey : String := "DADeviceUnit"

def kDADiskDescriptionDeviceGUIDKey : String := "DADeviceGUID"

def kDADiskDescriptionAppearanceTimeKey : String := "DAAppearanceTime"

def kDADiskDescriptionBusNameKey : String := "DABusName"

def kDADiskDescriptionBusPathKey : String := "DABusPath"

attribute [simp] kIOBSDNameKey kIOMediaPreferredBlockSizeKey kIOBSDMajorKey
  kIOBSDMinorKey kIOBSDUnitKey kIOMediaContentKey kIOMediaEjectableKey
  kIOMediaIconKey kIODVDMediaClass kIOCDMediaClass kIOMediaClass
  kIODVDMediaTypeKey kIOCDMediaTypeKey kIOMediaLeafKey kIOMediaRemovableKey
  kIOMediaSizeKey kIOMediaWholeKey kIOMediaWritableKey
  kIOPropertyProtocolCharacteristicsKey kIOPropertyPhysicalInterconnectLocationKey
  kIOPropertyInternalKey kIOPropertyExternalKey kIOPropertyPhysicalInterconnectTypeKey
  kIOPropertyDeviceCharacteristicsKey kIOPropertyProductNameKey
  kIOPropertyProductRevisionLevelKey kIOPropertyVendorNameKey
  kDADiskDescriptionVolumeNetworkKey kDADiskDescriptionVolumeMountableKey
  kDADiskDescriptionVolumePathKey kDADiskDescriptionMediaBlockSizeKey
  kDADiskDescriptionMediaBSDNameKey kDADiskDescriptionMediaBSDMajorKey
  kDADiskDescriptionMediaBSDMinorKey kDADiskDescriptionMediaBSDUnitKey
  kDADiskDescriptionMediaContentKey kDADiskDescriptionMediaEjectableKey
  kDADiskDescriptionMediaIconKey kDADiskDescriptionMediaKindKey
  kDADiskDescriptionMediaTypeKey kDADiskDescriptionMediaLeafKey
  kDADiskDescriptionMediaNameKey kDADiskDescriptionMediaPathKey
  kDADiskDescriptionMediaRemovableKey kDADiskDescriptionMediaSizeKey
  kDADiskDescriptionMediaWholeKey kDADiskDescriptionMediaWritableKey
  kDADiskDescriptionDeviceInternalKey kDADiskDescriptionDeviceProtocolKey
  kDADiskDescriptionDeviceModelKey kDADiskDescriptionDeviceRevisionKey
  kDADiskDescriptionDeviceVendorKey kDADiskDescriptionDevicePathKey
  kDADiskDescriptionDeviceUnitKey kDADiskDescriptionDeviceGUIDKey
  kDADiskDescriptionAppearanceTimeKey kDADiskDescriptionBusNameKey
  kDADiskDescriptionBusPathKey _kDADiskIDKey

/-! ## External collaborators -/

/-- A `struct passwd` entry as consumed by the code (`pw_uid`,
`pw_gid`). -/
structure passwd where
  pw_uid : Int
  pw_gid : Int
  deriving DecidableEq

/-- The fields of `struct statfs` the code consumes. -/
structure statfs_result where
  f_mntonname : String
  f_flags_MNT_LOCAL : Bool
  f_owner : Int
  deriving DecidableEq

/-- `CFStringGetCString`/`CFStringCompare` view of a CF object as a
string: succeeds exactly on `CFString`s. -/
def asCFString : CFValue → Option String
  | .string s => some s
  | _ => none

/-- `CFNumberGetValue` on a value the code assumes to be a `CFNumber`
(the C performs no type check; a non-number read is undefined there and
modelled as `0`). -/
def asCFNumberInt : CFValue → Int
  | .number n => n
  | _ => 0

/-- `makedev( major, minor )`: `(major << 24) | minor`. -/
def makedev (major minor : Int) : Int :=
  major * 16777216 + minor

/-- The 64-bit truncation performed by `CFNumberGetValue( …,
kCFNumberSInt64Type, &value )` into a `UInt64` variable. -/
def toUInt64 (n : Int) : Nat :=
  (n % (2 ^ 64 : Int)).toNat

/-- The eight bytes of `OSSwapHostToBigInt64( value )` as laid out in
memory on the little-endian host and captured by
`CFDataCreate( …, &value, sizeof( value ) )`: the value's big-endian
byte sequence. -/
def OSSwapHostToBigInt64Bytes (value : Nat) : List Nat :=
  [value / 2 ^ 56 % 256, value / 2 ^ 48 % 256, value / 2 ^ 40 % 256,
    value / 2 ^ 32 % 256, value / 2 ^ 24 % 256, value / 2 ^ 16 % 256,
    value / 2 ^ 8 % 256, value % 256]

/-- Recompose a byte sequence read big-endian. -/
def beFoldBytes (bytes : List Nat) : Nat :=
  bytes.foldl (fun a b => a * 256 + b) 0

/-- What the registry offers about the first `IOBlockStorageDevice`
ancestor's own device-tree-plane ancestor (the "bus"): name and path in
the device-tree plane, each `none` when the respective
`IORegistryEntryGetNameInPlane`/`IORegistryEntryGetPath` query or its
`CFStringCreateWithCString` decoding fails. -/
structure IOBusEnv where
  nameInPlane : Option String
  pathInPlane : Option String

/-- What the registry offers about the first `IOBlockStorageDevice`
ancestor of the media: its property table
(`IORegistryEntryCreateCFProperties`, `none` on error), its service
path (with decoding), the `IORegistryEntrySearchCFProperty` results for
`"IOUnit"`, `"GUID"` (a 64-bit `CFNumber`), `"eject-upon-logout"`,
`"owner-uid"` and `"owner-mode"` (numeric hints), and its first
device-tree-plane ancestor. -/
structure IODeviceEnv where
  properties : Option CFDict
  path : Option String
  unit : Option CFValue
  guid : Option Int
  ejectUponLogoutHint : Option CFValue
  ownerUID : Option Int
  ownerMode : Option Int
  bus : Option IOBusEnv

/-- What the registry offers `DADiskCreateFromIOMedia` about the media
entry itself: its property table (`none` on
`IORegistryEntryCreateCFProperties` error), the upward icon search
result, class conformance (`IOObjectConformsTo`), its registry name
(`IORegistryEntryGetName` plus decoding), its registry paths in the
device-tree and service planes, the block-storage-device ancestor, the
upward `"autodiskmount"` search result, the current wall-clock time,
and the system identity lookup `getpwuid`. -/
structure IOMediaEnv where
  properties : Option CFDict
  icon : Option CFValue
  conformsToDVD : Bool
  conformsToCD : Bool
  name : Option String
  pathInDeviceTreePlane : Option String
  pathInServicePlane : Option String
  device : Option IODeviceEnv
  autodiskmountHint : Option CFValue
  appearanceTime : Int
  getpwuid : Int → Option passwd

/-! ## Hardware construction (`DADiskCreateFromIOMedia`)

The function is rendered as a chain of required lookups (each `goto
DADiskCreateFromIOMediaErr` becoming a `none` result) around named
stage functions for the conditional fragments, cited by source line. -/

/-- Lines 370–405: media kind and (for DVD/CD media) the required
media type, recorded in the description. -/
def __DADiskMediaKindFacts (conformsToDVD conformsToCD : Bool)
    (properties : CFDict) (description : CFDict) : Option CFDict :=
  if conformsToDVD then
    let description :=
      description.setValue kDADiskDescriptionMediaKindKey (.string kIODVDMediaClass)
    match properties.getValue kIODVDMediaTypeKey with
    | none => none
    | some typeObject =>
        some (description.setValue kDADiskDescriptionMediaTypeKey typeObject)
  else if conformsToCD then
    let description :=
      description.setValue kDADiskDescriptionMediaKindKey (.string kIOCDMediaClass)
    match properties.getValue kIOCDMediaTypeKey with
    | none => none
    | some typeObject =>
        some (description.setValue kDADiskDescriptionMediaTypeKey typeObject)
  else
    some (description.setValue kDADiskDescriptionMediaKindKey (.string kIOMediaClass))

/-- Lines 515–551: the optional protocol-characteristics
sub-dictionary — device internal? (`CFStringCompare` against
`Internal`/`External`) and device protocol.  A sub-entry the code would
hand untyped to `CFStringCompare` is modelled as matching neither
class. -/
def __DADiskProtocolFacts (deviceProperties : CFDict) (description : CFDict) : CFDict :=
  match deviceProperties.getValue kIOPropertyProtocolCharacteristicsKey with
  | some (.dict sub) =>
      let description :=
        match sub.getValue kIOPropertyPhysicalInterconnectLocationKey with
        | some (.string location) =>
            if location = kIOPropertyInternalKey then
              description.setValue kDADiskDescriptionDeviceInternalKey (.boolean true)
            else if location = kIOPropertyExternalKey then
              description.setValue kDADiskDescriptionDeviceInternalKey (.boolean false)
            else
              description
        | _ => description
      match sub.getValue kIOPropertyPhysicalInterconnectTypeKey with
      | some protocolObject =>
          description.setValue kDADiskDescriptionDeviceProtocolKey protocolObject
      | none => description
  | _ => description

/-- Lines 557–593: the optional device-characteristics sub-dictionary —
device model, revision and vendor. -/
def __DADiskDeviceCharacteristicFacts (deviceProperties : CFDict)
    (description : CFDict) : CFDict :=
  match deviceProperties.getValue kIOPropertyDeviceCharacteristicsKey with
  | some (.dict sub) =>
      let description :=
        match sub.getValue kIOPropertyProductNameKey with
        | some modelObject =>
            description.setValue kDADiskDescriptionDeviceModelKey modelObject
        | none => description
      let description :=
        match sub.getValue kIOPropertyProductRevisionLevelKey with
        | some revisionObject =>
            description.setValue kDADiskDescriptionDeviceRevisionKey revisionObject
        | none => description
      match sub.getValue kIOPropertyVendorNameKey with
      | some vendorObject =>
          description.setValue kDADiskDescriptionDeviceVendorKey vendorObject
      | none => description
  | _ => description

/-- Lines 612–622: the optional device unit. -/
def __DADiskDeviceUnitFacts (unit : Option CFValue) (description : CFDict) : CFDict :=
  match unit with
  | some unitObject => description.setValue kDADiskDescriptionDeviceUnitKey unitObject
  | none => description

/-- Lines 628–648: the optional device GUID — the 64-bit value read by
`CFNumberGetValue`, byte-swapped to big-endian by
`OSSwapHostToBigInt64` and stored as an 8-byte blob. -/
def __DADiskDeviceGUIDFacts (guid : Option Int) (description : CFDict) : CFDict :=
  match guid with
  | some guidNumber =>
      let value := toUInt64 guidNumber
      description.setValue kDADiskDescriptionDeviceGUIDKey
        (.data (OSSwapHostToBigInt64Bytes value))
  | none => description

/-- Lines 657–701: bus name and bus path when a device-tree-plane
ancestor exists; with such an ancestor, a failing name or path query
aborts construction. -/
def __DADiskBusFacts (bus : Option IOBusEnv) (description : CFDict) : Option CFDict :=
  match bus with
  | some bus =>
      match bus.nameInPlane with
      | none => none
      | some busName =>
          let description :=
            description.setValue kDADiskDescriptionBusNameKey (.string busName)
          match bus.pathInPlane with
          | none => none
          | some busPath =>
              some (description.setValue kDADiskDescriptionBusPathKey (.string busPath))
  | none => some description

/-- Lines 719–734: mount automatic?  `kDADiskOptionMountAutomatic` is
set when no `"autodiskmount"` hint exists, both it and
`kDADiskOptionMountAutomaticNoDefer` when the hint is `kCFBooleanTrue`,
and neither otherwise. -/
def __DADiskMountAutomaticOptions (hint : Option CFValue)
    (options : List DADiskOptionFlag) : List DADiskOptionFlag :=
  match hint with
  | none => options ++ [DADiskOptionFlag.kDADiskOptionMountAutomatic]
  | some hintObject =>
      if hintObject = .boolean true then
        options ++ [DADiskOptionFlag.kDADiskOptionMountAutomatic,
          DADiskOptionFlag.kDADiskOptionMountAutomaticNoDefer]
      else
        options

/-- Lines 740–751: eject upon logout?  Set exactly when the
`"eject-upon-logout"` hint is `kCFBooleanTrue`. -/
def __DADiskEjectUponLogoutOptions (hint : Option CFValue)
    (options : List DADiskOptionFlag) : List DADiskOptionFlag :=
  match hint with
  | some hintObject =>
      if hintObject = .boolean true then
        options ++ [DADiskOptionFlag.kDADiskOptionEjectUponLogout]
      else
        options
  | none => options

/-- Lines 757–771: the two independent real-identity downgrades — media
removable (description value `kCFBooleanTrue`) and device internal
(description value `kCFBooleanFalse`). -/
def __DADiskSetOwnerDowngrades (disk : Disk) : Disk :=
  let disk :=
    if disk._description.getValue kDADiskDescriptionMediaRemovableKey
        = some (.boolean true) then
      { disk with _userRGID := ___GID_UNKNOWN, _userRUID := ___UID_UNKNOWN }
    else
      disk
  if disk._description.getValue kDADiskDescriptionDeviceInternalKey
      = some (.boolean false) then
    { disk with _userRGID := ___GID_UNKNOWN, _userRUID := ___UID_UNKNOWN }
  else
    disk

/-- Lines 773–796: the explicit `"owner-uid"` hint — on a successful
`getpwuid` lookup, both real and effective user/group are overwritten
with the resolved identity. -/
def __DADiskSetOwnerHint (ownerUID : Option Int) (getpwuid : Int → Option passwd)
    (disk : Disk) : Disk :=
  match ownerUID with
  | some userUID =>
      match getpwuid userUID with
      | some user =>
          { disk with
              _userEGID := user.pw_gid,
              _userEUID := user.pw_uid,
              _userRGID := user.pw_gid,
              _userRUID := user.pw_uid }
      | none => disk
  | none => disk

/-- Lines 798–812: the explicit `"owner-mode"` hint. -/
def __DADiskOwnerMode (ownerMode : Option Int) (mode : Int) : Int :=
  match ownerMode with
  | some mode => mode
  | none => mode

/-- Lines 283–481 of `DADiskCreateFromIOMedia`: the media-description
section — each required media fact recorded in the description, with
`goto DADiskCreateFromIOMediaErr` becoming a `none` result. -/
def __DADiskAddMediaFacts (env : IOMediaEnv) (properties : CFDict) (disk : Disk) :
    Option Disk :=
  let disk := disk.setDesc kDADiskDescriptionVolumeNetworkKey (.boolean false)
  match properties.getValue kIOMediaPreferredBlockSizeKey with
  | none => none
  | some blockSizeObject =>
    let disk := disk.setDesc kDADiskDescriptionMediaBlockSizeKey blockSizeObject
    match properties.getValue kIOBSDNameKey with
    | none => none
    | some bsdNameObject2 =>
      let disk := disk.setDesc kDADiskDescriptionMediaBSDNameKey bsdNameObject2
      match properties.getValue kIOBSDMajorKey with
      | none => none
      | some majorObject =>
        let disk := disk.setDesc kDADiskDescriptionMediaBSDMajorKey majorObject
        match properties.getValue kIOBSDMinorKey with
        | none => none
        | some minorObject =>
          let disk := disk.setDesc kDADiskDescriptionMediaBSDMinorKey minorObject
          let disk := { disk with
              _deviceNode := makedev (asCFNumberInt majorObject) (asCFNumberInt minorObject) }
          match properties.getValue kIOBSDUnitKey with
          | none => none
          | some unitObject =>
            let disk := disk.setDesc kDADiskDescriptionMediaBSDUnitKey unitObject
            let disk := { disk with _deviceUnit := asCFNumberInt unitObject }
            match properties.getValue kIOMediaContentKey with
            | none => none
            | some contentObject =>
              let disk := disk.setDesc kDADiskDescriptionMediaContentKey contentObject
              match properties.getValue kIOMediaEjectableKey with
              | none => none
              | some ejectableObject =>
                let disk := disk.setDesc kDADiskDescriptionMediaEjectableKey ejectableObject
                match env.icon with
                | none => none
                | some iconObject =>
                  let disk := disk.setDesc kDADiskDescriptionMediaIconKey iconObject
                  match __DADiskMediaKindFacts env.conformsToDVD env.conformsToCD
                      properties disk._description with
                  | none => none
                  | some description2 =>
                    let disk := { disk with _description := description2 }
                    match properties.getValue kIOMediaLeafKey with
                    | none => none
                    | some leafObject =>
                      let disk := disk.setDesc kDADiskDescriptionMediaLeafKey leafObject
                      match env.name with
                      | none => none
                      | some mediaName =>
                        let disk :=
                          disk.setDesc kDADiskDescriptionMediaNameKey (.string mediaName)
                        match (match env.pathInDeviceTreePlane with
                          | some mediaPath => some mediaPath
                          | none => env.pathInServicePlane) with
                        | none => none
                        | some mediaPath =>
                          let disk :=
                            disk.setDesc kDADiskDescriptionMediaPathKey (.string mediaPath)
                          match properties.getValue kIOMediaRemovableKey with
                          | none => none
                          | some removableObject =>
                            let disk :=
                              disk.setDesc kDADiskDescriptionMediaRemovableKey removableObject
                            match properties.getValue kIOMediaSizeKey with
                            | none => none
                            | some sizeObject =>
                              let disk :=
                                disk.setDesc kDADiskDescriptionMediaSizeKey sizeObject
                              match properties.getValue kIOMediaWholeKey with
                              | none => none
                              | some wholeObject =>
                                let disk :=
                                  disk.setDesc kDADiskDescriptionMediaWholeKey wholeObject
                                match properties.getValue kIOMediaWritableKey with
                                | none => none
                                | some writableObject =>
                                  some (disk.setDesc
                                    kDADiskDescriptionMediaWritableKey writableObject)

/-- Lines 504–831 of `DADiskCreateFromIOMedia`: the device and bus
section and the derived state — device facts, appearance time, mount
options, and the ownership cascade. -/
def __DADiskAddDeviceFacts (env : IOMediaEnv) (device : IODeviceEnv) (disk : Disk) :
    Option Disk :=
  match device.properties with
  | none => none
  | some deviceProperties =>
    let disk := { disk with
        _description := __DADiskProtocolFacts deviceProperties disk._description }
    let disk := { disk with
        _description := __DADiskDeviceCharacteristicFacts deviceProperties disk._description }
    match device.path with
    | none => none
    | some devicePath =>
      let disk := disk.setDesc kDADiskDescriptionDevicePathKey (.string devicePath)
      let disk := { disk with
          _description := __DADiskDeviceUnitFacts device.unit disk._description }
      let disk := { disk with
          _description := __DADiskDeviceGUIDFacts device.guid disk._description }
      match __DADiskBusFacts device.bus disk._description with
      | none => none
      | some description2 =>
        let disk := { disk with _description := description2 }
        let disk :=
          disk.setDesc kDADiskDescriptionAppearanceTimeKey (.number env.appearanceTime)
        let disk := { disk with
            _options := __DADiskMountAutomaticOptions env.autodiskmountHint disk._options }
        let disk := { disk with
            _options :=
              __DADiskEjectUponLogoutOptions device.ejectUponLogoutHint disk._options }
        let disk := __DADiskSetOwnerDowngrades disk
        let disk := __DADiskSetOwnerHint device.ownerUID env.getpwuid disk
        some { disk with _mode := __DADiskOwnerMode device.ownerMode disk._mode }

/-- `DADiskCreateFromIOMedia` (lines 229–831): build a disk from a
hardware registry entry, returning `none` wherever the C takes `goto
DADiskCreateFromIOMediaErr`. -/
def DADiskCreateFromIOMedia (env : IOMediaEnv) : Option Disk :=
  match env.properties with
  | none => none
  | some properties =>
    match properties.getValue kIOBSDNameKey with
    | none => none
    | some bsdNameObject =>
      match asCFString bsdNameObject with
      | none => none
      | some name =>
        let path := _PATH_DEV ++ name
        let disk := __DADiskCreate (cstr path)
        let disk := { disk with
            _device := some path,
            _devicePath0 := some path,
            _devicePath1 := some (_PATH_DEV ++ "r" ++ name) }
        match __DADiskAddMediaFacts env properties disk with
        | none => none
        | some disk =>
          match env.device with
          | none => none
          | some device =>
            __DADiskAddDeviceFacts env device disk

/-! ## Volume construction (`DADiskCreateFromVolumePath`) -/

/-- What the system offers `DADiskCreateFromVolumePath`: the path
argument (`none` models a NULL `CFURLRef`), the
`___CFURLCopyFileSystemRepresentation` result, the `___statfs` result
(`none` on error), and `getpwuid`. -/
structure VolumePathEnv where
  path : Option String
  fsrep : Option String
  statfs : Option statfs_result
  getpwuid : Int → Option passwd

/-- `DADiskCreateFromVolumePath` (lines 833–894): build a disk from a
live mount point, returning `none` — not an error — when the path is
absent, has no filesystem representation, or has no mount
statistics. -/
def DADiskCreateFromVolumePath (env : VolumePathEnv) : Option Disk :=
  match env.path with
  | none => none
  | some path =>
    match env.fsrep with
    | none => none
    | some _ =>
      match env.statfs with
      | none => none
      | some fs =>
        let disk := __DADiskCreate (cstr fs.f_mntonname)
        let disk := { disk with _bypath := some path }
        let disk := disk.setDesc kDADiskDescriptionVolumePathKey (.url path)
        let disk := disk.setDesc kDADiskDescriptionVolumeMountableKey (.boolean true)
        let disk :=
          if fs.f_flags_MNT_LOCAL then
            disk.setDesc kDADiskDescriptionVolumeNetworkKey (.boolean false)
          else
            disk.setDesc kDADiskDescriptionVolumeNetworkKey (.boolean true)
        let disk := { disk with
            _state := disk._state ++ [DADiskStateFlag.kDADiskStateStagedProbe,
              DADiskStateFlag.kDADiskStateStagedPeek,
              DADiskStateFlag.kDADiskStateStagedRepair,
              DADiskStateFlag.kDADiskStateStagedApprove,
              DADiskStateFlag.kDADiskStateStagedAuthorize,
              DADiskStateFlag.kDADiskStateStagedMount] }
        let disk :=
          match env.getpwuid fs.f_owner with
          | some user =>
              { disk with
                  _userEGID := user.pw_gid,
                  _userEUID := user.pw_uid,
                  _userRGID := user.pw_gid,
                  _userRUID := user.pw_uid }
          | none => disk
        some disk

/-- `DADiskGetState`: test a state bit. -/
def DADiskGetState (disk : Disk) (state : DADiskStateFlag) : Bool :=
  disk._state.contains state

/-- `DADiskGetOption`: test an option bit. -/
def DADiskGetOption (disk : Disk) (option : DADiskOptionFlag) : Bool :=
  disk._options.contains option

/-! ## Projection and stage lemmas -/

@[simp]
theorem Disk.setDesc_description (d : Disk) (k : String) (v : CFValue) :
    (d.setDesc k v)._description = d._description.setValue k v := rfl

@[simp]
theorem Disk.setDesc_id (d : Disk) (k : String) (v : CFValue) :
    (d.setDesc k v)._id = d._id := rfl

@[simp]
theorem Disk.setDesc_state (d : Disk) (k : String) (v : CFValue) :
    (d.setDesc k v)._state = d._state := rfl

@[simp]
theorem Disk.setDesc_options (d : Disk) (k : String) (v : CFValue) :
    (d.setDesc k v)._options = d._options := rfl

@[simp]
theorem Disk.setDesc_serialization (d : Disk) (k : String) (v : CFValue) :
    (d.setDesc k v)._serialization = d._serialization := rfl

@[simp]
theorem Disk.setDesc_mode (d : Disk) (k : String) (v : CFValue) :
    (d.setDesc k v)._mode = d._mode := rfl

@[simp]
theorem Disk.setDesc_userEGID (d : Disk) (k : String) (v : CFValue) :
    (d.setDesc k v)._userEGID = d._userEGID := rfl

@[simp]
theorem Disk.setDesc_userEUID (d : Disk) (k : String) (v : CFValue) :
    (d.setDesc k v)._userEUID = d._userEUID := rfl

@[simp]
theorem Disk.setDesc_userRGID (d : Disk) (k : String) (v : CFValue) :
    (d.setDesc k v)._userRGID = d._userRGID := rfl

@[simp]
theorem Disk.setDesc_userRUID (d : Disk) (k : String) (v : CFValue) :
    (d.setDesc k v)._userRUID = d._userRUID := rfl

theorem __DADiskMediaKindFacts_facts (conformsToDVD conformsToCD : Bool)
    (properties d d2 : CFDict)
    (h : __DADiskMediaKindFacts conformsToDVD conformsToCD properties d = some d2) :
    (conformsToDVD = true → (properties.getValue kIODVDMediaTypeKey).isSome)
    ∧ (conformsToDVD = false → conformsToCD = true →
        (properties.getValue kIOCDMediaTypeKey).isSome)
    ∧ ∀ k, k ≠ kDADiskDescriptionMediaKindKey → k ≠ kDADiskDescriptionMediaTypeKey →
        d2.getValue k = d.getValue k := by
  unfold __DADiskMediaKindFacts at h
  cases hdvd : conformsToDVD <;> cases hcd : conformsToCD <;>
    simp only [hdvd, hcd, if_true, if_false, Bool.false_eq_true] at h
  case false.false =>
    injection h with h
    subst h
    refine ⟨by simp, by simp, ?_⟩
    intro k h1 _
    exact CFDict.getValue_setValue_ne k _ _ d (Ne.symm h1)
  case false.true =>
    cases ht : properties.getValue kIOCDMediaTypeKey with
    | none => rw [ht] at h; exact absurd h (by simp)
    | some typeObject =>
        rw [ht] at h
        injection h with h
        subst h
        refine ⟨by simp, fun _ _ => by simp [ht], ?_⟩
        intro k h1 h2
        rw [CFDict.getValue_setValue_ne k _ _ _ (Ne.symm h2),
          CFDict.getValue_setValue_ne k _ _ d (Ne.symm h1)]
  all_goals
    cases ht : properties.getValue kIODVDMediaTypeKey with
    | none => rw [ht] at h; exact absurd h (by simp)
    | some typeObject =>
        rw [ht] at h
        injection h with h
        subst h
        refine ⟨fun _ => by simp [ht], by simp, ?_⟩
        intro k h1 h2
        rw [CFDict.getValue_setValue_ne k _ _ _ (Ne.symm h2),
          CFDict.getValue_setValue_ne k _ _ d (Ne.symm h1)]

theorem __DADiskProtocolFacts_getValue (deviceProperties d : CFDict) (k : String)
    (h1 : k ≠ kDADiskDescriptionDeviceInternalKey)
    (h2 : k ≠ kDADiskDescriptionDeviceProtocolKey) :
    (__DADiskProtocolFacts deviceProperties d).getValue k = d.getValue k := by
  have h1s := Ne.symm h1
  have h2s := Ne.symm h2
  unfold __DADiskProtocolFacts
  repeat' split
  all_goals simp_all

theorem __DADiskDeviceCharacteristicFacts_getValue (deviceProperties d : CFDict)
    (k : String)
    (h1 : k ≠ kDADiskDescriptionDeviceModelKey)
    (h2 : k ≠ kDADiskDescriptionDeviceRevisionKey)
    (h3 : k ≠ kDADiskDescriptionDeviceVendorKey) :
    (__DADiskDeviceCharacteristicFacts deviceProperties d).getValue k = d.getValue k := by
  have h1s := Ne.symm h1
  have h2s := Ne.symm h2
  have h3s := Ne.symm h3
  unfold __DADiskDeviceCharacteristicFacts
  repeat' split
  all_goals simp_all

theorem __DADiskDeviceUnitFacts_getValue (unit : Option CFValue) (d : CFDict)
    (k : String) (h1 : k ≠ kDADiskDescriptionDeviceUnitKey) :
    (__DADiskDeviceUnitFacts unit d).getValue k = d.getValue k := by
  cases unit with
  | none => rfl
  | some unitObject =>
      exact CFDict.getValue_setValue_ne k _ _ d (Ne.symm h1)

theorem __DADiskDeviceGUIDFacts_getValue_guid (guid : Option Int) (d : CFDict) :
    (__DADiskDeviceGUIDFacts guid d).getValue kDADiskDescriptionDeviceGUIDKey
      = (match guid with
          | some guidNumber =>
              some (.data (OSSwapHostToBigInt64Bytes (toUInt64 guidNumber)))
          | none => d.getValue kDADiskDescriptionDeviceGUIDKey) := by
  cases guid <;> simp [__DADiskDeviceGUIDFacts]

theorem __DADiskBusFacts_facts (bus : Option IOBusEnv) (d d2 : CFDict)
    (h : __DADiskBusFacts bus d = some d2) :
    (∀ b, bus = some b → b.nameInPlane.isSome ∧ b.pathInPlane.isSome)
    ∧ ∀ k, k ≠ kDADiskDescriptionBusNameKey → k ≠ kDADiskDescriptionBusPathKey →
        d2.getValue k = d.getValue k := by
  cases bus with
  | none =>
      simp only [__DADiskBusFacts, Option.some.injEq] at h
      subst h
      exact ⟨fun b hb => (nomatch hb), fun k _ _ => rfl⟩
  | some b =>
      simp only [__DADiskBusFacts] at h
      cases hn : b.nameInPlane with
      | none =>
          simp only [hn] at h
          exact Option.noConfusion h
      | some busName =>
          simp only [hn] at h
          cases hp : b.pathInPlane with
          | none =>
              simp only [hp] at h
              exact Option.noConfusion h
          | some busPath =>
              simp only [hp, Option.some.injEq] at h
              subst h
              refine ⟨fun b2 hb2 => ?_, fun k h1 h2 => ?_⟩
              · cases hb2
                exact ⟨by simp [hn], by simp [hp]⟩
              · rw [CFDict.getValue_setValue_ne k _ _ _ (Ne.symm h2),
                  CFDict.getValue_setValue_ne k _ _ d (Ne.symm h1)]

@[simp]
theorem __DADiskSetOwnerDowngrades_description (d : Disk) :
    (__DADiskSetOwnerDowngrades d)._description = d._description := by
  unfold __DADiskSetOwnerDowngrades
  dsimp only
  repeat' split
  all_goals rfl

@[simp]
theorem __DADiskSetOwnerDowngrades_state (d : Disk) :
    (__DADiskSetOwnerDowngrades d)._state = d._state := by
  unfold __DADiskSetOwnerDowngrades
  dsimp only
  repeat' split
  all_goals rfl

@[simp]
theorem __DADiskSetOwnerDowngrades_options (d : Disk) :
    (__DADiskSetOwnerDowngrades d)._options = d._options := by
  unfold __DADiskSetOwnerDowngrades
  dsimp only
  repeat' split
  all_goals rfl

@[simp]
theorem __DADiskSetOwnerDowngrades_serialization (d : Disk) :
    (__DADiskSetOwnerDowngrades d)._serialization = d._serialization := by
  unfold __DADiskSetOwnerDowngrades
  dsimp only
  repeat' split
  all_goals rfl

@[simp]
theorem __DADiskSetOwnerDowngrades_mode (d : Disk) :
    (__DADiskSetOwnerDowngrades d)._mode = d._mode := by
  unfold __DADiskSetOwnerDowngrades
  dsimp only
  repeat' split
  all_goals rfl

@[simp]
theorem __DADiskSetOwnerDowngrades_userEGID (d : Disk) :
    (__DADiskSetOwnerDowngrades d)._userEGID = d._userEGID := by
  unfold __DADiskSetOwnerDowngrades
  dsimp only
  repeat' split
  all_goals rfl

@[simp]
theorem __DADiskSetOwnerDowngrades_userEUID (d : Disk) :
    (__DADiskSetOwnerDowngrades d)._userEUID = d._userEUID := by
  unfold __DADiskSetOwnerDowngrades
  dsimp only
  repeat' split
  all_goals rfl

theorem __DADiskSetOwnerDowngrades_downgrade (d : Disk)
    (hcond : d._description.getValue kDADiskDescriptionMediaRemovableKey
        = some (.boolean true)
      ∨ d._description.getValue kDADiskDescriptionDeviceInternalKey
        = some (.boolean false)) :
    (__DADiskSetOwnerDowngrades d)._userRUID = ___UID_UNKNOWN
    ∧ (__DADiskSetOwnerDowngrades d)._userRGID = ___GID_UNKNOWN := by
  unfold __DADiskSetOwnerDowngrades
  by_cases h1 : d._description.getValue kDADiskDescriptionMediaRemovableKey
      = some (.boolean true) <;>
    by_cases h2 : d._description.getValue kDADiskDescriptionDeviceInternalKey
        = some (.boolean false) <;>
      simp_all

theorem __DADiskSetOwnerDowngrades_keep (d : Disk)
    (h1 : d._description.getValue kDADiskDescriptionMediaRemovableKey
        ≠ some (.boolean true))
    (h2 : d._description.getValue kDADiskDescriptionDeviceInternalKey
        ≠ some (.boolean false)) :
    (__DADiskSetOwnerDowngrades d)._userRUID = d._userRUID
    ∧ (__DADiskSetOwnerDowngrades d)._userRGID = d._userRGID := by
  unfold __DADiskSetOwnerDowngrades
  simp_all

@[simp]
theorem __DADiskSetOwnerHint_description (ownerUID : Option Int)
    (getpwuid : Int → Option passwd) (d : Disk) :
    (__DADiskSetOwnerHint ownerUID getpwuid d)._description = d._description := by
  unfold __DADiskSetOwnerHint
  repeat' split
  all_goals rfl

@[simp]
theorem __DADiskSetOwnerHint_state (ownerUID : Option Int)
    (getpwuid : Int → Option passwd) (d : Disk) :
    (__DADiskSetOwnerHint ownerUID getpwuid d)._state = d._state := by
  unfold __DADiskSetOwnerHint
  repeat' split
  all_goals rfl

@[simp]
theorem __DADiskSetOwnerHint_options (ownerUID : Option Int)
    (getpwuid : Int → Option passwd) (d : Disk) :
    (__DADiskSetOwnerHint ownerUID getpwuid d)._options = d._options := by
  unfold __DADiskSetOwnerHint
  repeat' split
  all_goals rfl

@[simp]
theorem __DADiskSetOwnerHint_serialization (ownerUID : Option Int)
    (getpwuid : Int → Option passwd) (d : Disk) :
    (__DADiskSetOwnerHint ownerUID getpwuid d)._serialization = d._serialization := by
  unfold __DADiskSetOwnerHint
  repeat' split
  all_goals rfl

@[simp]
theorem __DADiskSetOwnerHint_mode (ownerUID : Option Int)
    (getpwuid : Int → Option passwd) (d : Disk) :
    (__DADiskSetOwnerHint ownerUID getpwuid d)._mode = d._mode := by
  unfold __DADiskSetOwnerHint
  repeat' split
  all_goals rfl

theorem __DADiskSetOwnerHint_override (ownerUID : Option Int)
    (getpwuid : Int → Option passwd) (d : Disk) (uid : Int) (user : passwd)
    (h1 : ownerUID = some uid) (h2 : getpwuid uid = some user) :
    (__DADiskSetOwnerHint ownerUID getpwuid d)._userEUID = user.pw_uid
    ∧ (__DADiskSetOwnerHint ownerUID getpwuid d)._userEGID = user.pw_gid
    ∧ (__DADiskSetOwnerHint ownerUID getpwuid d)._userRUID = user.pw_uid
    ∧ (__DADiskSetOwnerHint ownerUID getpwuid d)._userRGID = user.pw_gid := by
  subst h1
  unfold __DADiskSetOwnerHint
  simp [h2]

theorem __DADiskSetOwnerHint_keep (ownerUID : Option Int)
    (getpwuid : Int → Option passwd) (d : Disk)
    (h : (match ownerUID with
          | some uid => getpwuid uid
          | none => none) = none) :
    (__DADiskSetOwnerHint ownerUID getpwuid d)._userEUID = d._userEUID
    ∧ (__DADiskSetOwnerHint ownerUID getpwuid d)._userEGID = d._userEGID
    ∧ (__DADiskSetOwnerHint ownerUID getpwuid d)._userRUID = d._userRUID
    ∧ (__DADiskSetOwnerHint ownerUID getpwuid d)._userRGID = d._userRGID := by
  unfold __DADiskSetOwnerHint
  cases ownerUID with
  | none => exact ⟨rfl, rfl, rfl, rfl⟩
  | some uid =>
      simp only [] at h
      simp [h]

@[simp]
theorem CFDict.getValue_nil (k : String) : CFDict.nil.getValue k = none := rfl

@[simp]
theorem __DADiskCreate_description (id : List Nat) :
    (__DADiskCreate id)._description
      = CFDict.nil.setValue _kDADiskIDKey (.data (id ++ [0])) := rfl

@[simp]
theorem __DADiskCreate_id (id : List Nat) : (__DADiskCreate id)._id = id := rfl

@[simp]
theorem __DADiskCreate_state (id : List Nat) : (__DADiskCreate id)._state = [] := rfl

@[simp]
theorem __DADiskCreate_options (id : List Nat) : (__DADiskCreate id)._options = [] := rfl

@[simp]
theorem __DADiskCreate_serialization (id : List Nat) :
    (__DADiskCreate id)._serialization = none := rfl

@[simp]
theorem __DADiskCreate_mode (id : List Nat) : (__DADiskCreate id)._mode = 0o755 := rfl

@[simp]
theorem __DADiskCreate_userEGID (id : List Nat) :
    (__DADiskCreate id)._userEGID = ___GID_ADMIN := rfl

@[simp]
theorem __DADiskCreate_userEUID (id : List Nat) :
    (__DADiskCreate id)._userEUID = ___UID_ROOT := rfl

@[simp]
theorem __DADiskCreate_userRGID (id : List Nat) :
    (__DADiskCreate id)._userRGID = ___GID_ADMIN := rfl

@[simp]
theorem __DADiskCreate_userRUID (id : List Nat) :
    (__DADiskCreate id)._userRUID = ___UID_ROOT := rfl

/-- The required media facts of §4.1: the lookups `DADiskCreateFromIOMedia`
performs on the media property table and registry that must succeed for
construction to proceed. -/
def MediaRequiredPresent (env : IOMediaEnv) (properties : CFDict) : Prop :=
  (properties.getValue kIOMediaPreferredBlockSizeKey).isSome
  ∧ (properties.getValue kIOBSDNameKey).isSome
  ∧ (properties.getValue kIOBSDMajorKey).isSome
  ∧ (properties.getValue kIOBSDMinorKey).isSome
  ∧ (properties.getValue kIOBSDUnitKey).isSome
  ∧ (properties.getValue kIOMediaContentKey).isSome
  ∧ (properties.getValue kIOMediaEjectableKey).isSome
  ∧ env.icon.isSome
  ∧ (env.conformsToDVD = true → (properties.getValue kIODVDMediaTypeKey).isSome)
  ∧ (env.conformsToDVD = false → env.conformsToCD = true →
      (properties.getValue kIOCDMediaTypeKey).isSome)
  ∧ (properties.getValue kIOMediaLeafKey).isSome
  ∧ env.name.isSome
  ∧ (env.pathInDeviceTreePlane.isSome ∨ env.pathInServicePlane.isSome)
  ∧ (properties.getValue kIOMediaRemovableKey).isSome
  ∧ (properties.getValue kIOMediaSizeKey).isSome
  ∧ (properties.getValue kIOMediaWholeKey).isSome
  ∧ (properties.getValue kIOMediaWritableKey).isSome

/-- The required device facts of §4.1: a block-storage-device ancestor
must exist with a readable property table and service path, and — when a
device-tree-plane ancestor exists — a readable bus name and path. -/
def DeviceRequiredPresent (device : IODeviceEnv) : Prop :=
  device.properties.isSome
  ∧ device.path.isSome
  ∧ ∀ b, device.bus = some b → b.nameInPlane.isSome ∧ b.pathInPlane.isSome

/-- A required fact of hardware construction is missing: the media
property table is unreadable; or the device node name is absent or not
a string; or another required media fact is absent; or no
block-storage-device ancestor exists; or its required facts are
absent. -/
def RequiredFactMissing (env : IOMediaEnv) : Prop :=
  env.properties = none
  ∨ ∃ properties, env.properties = some properties
      ∧ ((∀ o, properties.getValue kIOBSDNameKey = some o → asCFString o = none)
        ∨ ¬ MediaRequiredPresent env properties
        ∨ env.device = none
        ∨ ∃ device, env.device = some device ∧ ¬ DeviceRequiredPresent device)

theorem OSSwapHostToBigInt64Bytes_length (value : Nat) :
    (OSSwapHostToBigInt64Bytes value).length = 8 := rfl

theorem beFoldBytes_OSSwapHostToBigInt64Bytes (value : Nat) (h : value < 2 ^ 64) :
    beFoldBytes (OSSwapHostToBigInt64Bytes value) = value := by
  simp only [beFoldBytes, OSSwapHostToBigInt64Bytes, List.foldl]
  omega

theorem toUInt64_lt (n : Int) : toUInt64 n < 2 ^ 64 := by
  unfold toUInt64
  omega

/-- A media property table with every required media fact, used to
exercise the builders on concrete inputs. -/
def sampleMediaProperties : CFDict :=
  CFDict.cons "BSD Name" (.string "disk2")
    (CFDict.cons "Preferred Block Size" (.number 512)
      (CFDict.cons "BSD Major" (.number 1)
        (CFDict.cons "BSD Minor" (.number 2)
          (CFDict.cons "BSD Unit" (.number 2)
            (CFDict.cons "Content" (.string "GUID_partition_scheme")
              (CFDict.cons "Ejectable" (.boolean false)
                (CFDict.cons "Leaf" (.boolean false)
                  (CFDict.cons "Removable" (.boolean false)
                    (CFDict.cons "Size" (.number 10000000000)
                      (CFDict.cons "Whole" (.boolean true)
                        (CFDict.cons "Writable" (.boolean true) CFDict.nil)))))))))))

/-- A block-storage-device ancestor with an internal interconnect and a
GUID, no owner hints and no device-tree ancestor. -/
def sampleDevice : IODeviceEnv :=
  { properties := some (CFDict.cons "Protocol Characteristics"
      (.dict (CFDict.cons "Physical Interconnect Location" (.string "Internal") CFDict.nil))
      CFDict.nil)
    path := some "IOService:/sampledevice"
    unit := none
    guid := some 258
    ejectUponLogoutHint := none
    ownerUID := none
    ownerMode := none
    bus := none }

/-- A registry environment on which hardware construction succeeds. -/
def sampleIOMediaEnv : IOMediaEnv :=
  { properties := some sampleMediaProperties
    icon := some (.dict CFDict.nil)
    conformsToDVD := false
    conformsToCD := false
    name := some "sample media"
    pathInDeviceTreePlane := none
    pathInServicePlane := some "IOService:/samplemedia"
    device := some sampleDevice
    autodiskmountHint := none
    appearanceTime := 0
    getpwuid := fun _ => none }

/-- A mounted-volume environment on which volume construction
succeeds. -/
def sampleVolumeEnv : VolumePathEnv :=
  { path := some "/Volumes/Sample"
    fsrep := some "/Volumes/Sample"
    statfs := some ⟨"/Volumes/Sample", true, 501⟩
    getpwuid := fun _ => none }

theorem __DADiskAddMediaFacts_success (env : IOMediaEnv) (properties : CFDict)
    (d0 d1 : Disk) (h : __DADiskAddMediaFacts env properties d0 = some d1) :
    MediaRequiredPresent env properties
    ∧ d1._state = d0._state
    ∧ d1._options = d0._options
    ∧ d1._serialization = d0._serialization
    ∧ d1._mode = d0._mode
    ∧ d1._userEGID = d0._userEGID
    ∧ d1._userEUID = d0._userEUID
    ∧ d1._userRGID = d0._userRGID
    ∧ d1._userRUID = d0._userRUID
    ∧ d1._description.getValue kDADiskDescriptionDeviceGUIDKey
        = d0._description.getValue kDADiskDescriptionDeviceGUIDKey := by
  simp only [__DADiskAddMediaFacts] at h
  split at h
  · exact Option.noConfusion h
  rename_i blockSizeObject hblockSize
  split at h
  · exact Option.noConfusion h
  rename_i bsdNameObject2 hbsdName
  split at h
  · exact Option.noConfusion h
  rename_i majorObject hmajor
  split at h
  · exact Option.noConfusion h
  rename_i minorObject hminor
  split at h
  · exact Option.noConfusion h
  rename_i unitObject hunit
  split at h
  · exact Option.noConfusion h
  rename_i contentObject hcontent
  split at h
  · exact Option.noConfusion h
  rename_i ejectableObject hejectable
  split at h
  · exact Option.noConfusion h
  rename_i iconObject hicon
  split at h
  · exact Option.noConfusion h
  rename_i description2 hmk
  split at h
  · exact Option.noConfusion h
  rename_i leafObject hleaf
  split at h
  · exact Option.noConfusion h
  rename_i mediaName hname
  split at h
  · exact Option.noConfusion h
  rename_i mediaPath hpath
  split at h
  · exact Option.noConfusion h
  rename_i removableObject hremovable
  split at h
  · exact Option.noConfusion h
  rename_i sizeObject hsize
  split at h
  · exact Option.noConfusion h
  rename_i wholeObject hwhole
  split at h
  · exact Option.noConfusion h
  rename_i writableObject hwritable
  rw [Option.some.injEq] at h
  subst h
  have hf := __DADiskMediaKindFacts_facts _ _ _ _ _ hmk
  refine ⟨⟨Option.isSome_iff_exists.mpr ⟨_, hblockSize⟩,
      Option.isSome_iff_exists.mpr ⟨_, hbsdName⟩,
      Option.isSome_iff_exists.mpr ⟨_, hmajor⟩,
      Option.isSome_iff_exists.mpr ⟨_, hminor⟩,
      Option.isSome_iff_exists.mpr ⟨_, hunit⟩,
      Option.isSome_iff_exists.mpr ⟨_, hcontent⟩,
      Option.isSome_iff_exists.mpr ⟨_, hejectable⟩,
      Option.isSome_iff_exists.mpr ⟨_, hicon⟩,
      hf.1, hf.2.1,
      Option.isSome_iff_exists.mpr ⟨_, hleaf⟩,
      Option.isSome_iff_exists.mpr ⟨_, hname⟩, ?_,
      Option.isSome_iff_exists.mpr ⟨_, hremovable⟩,
      Option.isSome_iff_exists.mpr ⟨_, hsize⟩,
      Option.isSome_iff_exists.mpr ⟨_, hwhole⟩,
      Option.isSome_iff_exists.mpr ⟨_, hwritable⟩⟩,
    by simp, by simp, by simp, by simp, by simp, by simp, by simp, by simp, ?_⟩
  · cases hdt : env.pathInDeviceTreePlane with
    | some p => exact Or.inl (by simp [hdt])
    | none =>
        rw [hdt] at hpath
        simp only [] at hpath
        exact Or.inr (by simp [hpath])
  · simp [hf.2.2]

theorem __DADiskAddDeviceFacts_success (env : IOMediaEnv) (device : IODeviceEnv)
    (d0 d1 : Disk) (h : __DADiskAddDeviceFacts env device d0 = some d1) :
    DeviceRequiredPresent device
    ∧ d1._state = d0._state
    ∧ d1._serialization = d0._serialization
    ∧ d1._options = __DADiskEjectUponLogoutOptions device.ejectUponLogoutHint
        (__DADiskMountAutomaticOptions env.autodiskmountHint d0._options)
    ∧ d1._description.getValue kDADiskDescriptionDeviceGUIDKey
        = (match device.guid with
            | some guidNumber =>
                some (CFValue.data (OSSwapHostToBigInt64Bytes (toUInt64 guidNumber)))
            | none => d0._description.getValue kDADiskDescriptionDeviceGUIDKey)
    ∧ (∀ uid user, device.ownerUID = some uid → env.getpwuid uid = some user →
        d1._userEUID = user.pw_uid ∧ d1._userEGID = user.pw_gid
        ∧ d1._userRUID = user.pw_uid ∧ d1._userRGID = user.pw_gid)
    ∧ ((match device.ownerUID with
        | some uid => env.getpwuid uid
        | none => none) = none →
        d1._userEUID = d0._userEUID ∧ d1._userEGID = d0._userEGID
        ∧ ((d1._description.getValue kDADiskDescriptionMediaRemovableKey
              = some (CFValue.boolean true)
            ∨ d1._description.getValue kDADiskDescriptionDeviceInternalKey
              = some (CFValue.boolean false)) →
            d1._userRUID = ___UID_UNKNOWN ∧ d1._userRGID = ___GID_UNKNOWN)
        ∧ (d1._description.getValue kDADiskDescriptionMediaRemovableKey
              ≠ some (CFValue.boolean true) →
            d1._description.getValue kDADiskDescriptionDeviceInternalKey
              ≠ some (CFValue.boolean false) →
            d1._userRUID = d0._userRUID ∧ d1._userRGID = d0._userRGID)) := by
  simp only [__DADiskAddDeviceFacts] at h
  split at h
  · exact Option.noConfusion h
  rename_i deviceProperties hdevprops
  split at h
  · exact Option.noConfusion h
  rename_i devicePath hdevpath
  split at h
  · exact Option.noConfusion h
  rename_i description2 hbus
  rw [Option.some.injEq] at h
  subst h
  have hb := __DADiskBusFacts_facts _ _ _ hbus
  refine ⟨⟨Option.isSome_iff_exists.mpr ⟨_, hdevprops⟩,
      Option.isSome_iff_exists.mpr ⟨_, hdevpath⟩, hb.1⟩,
    by simp, by simp, by simp, ?_, ?_, ?_⟩
  · cases hg : device.guid with
    | some guidNumber =>
        simp [hg, hb.2, __DADiskDeviceGUIDFacts, __DADiskDeviceUnitFacts_getValue,
          __DADiskDeviceCharacteristicFacts_getValue, __DADiskProtocolFacts_getValue]
    | none =>
        simp [hg, hb.2, __DADiskDeviceGUIDFacts, __DADiskDeviceUnitFacts_getValue,
          __DADiskDeviceCharacteristicFacts_getValue, __DADiskProtocolFacts_getValue]
  · intro uid user huid hpw
    exact ⟨(__DADiskSetOwnerHint_override _ _ _ uid user huid hpw).1,
      (__DADiskSetOwnerHint_override _ _ _ uid user huid hpw).2.1,
      (__DADiskSetOwnerHint_override _ _ _ uid user huid hpw).2.2.1,
      (__DADiskSetOwnerHint_override _ _ _ uid user huid hpw).2.2.2⟩
  · intro h0
    refine ⟨((__DADiskSetOwnerHint_keep _ _ _ h0).1).trans (by simp),
      ((__DADiskSetOwnerHint_keep _ _ _ h0).2.1).trans (by simp), ?_, ?_⟩
    · intro hcond
      exact ⟨((__DADiskSetOwnerHint_keep _ _ _ h0).2.2.1).trans
          (__DADiskSetOwnerDowngrades_downgrade _ (by simpa using hcond)).1,
        ((__DADiskSetOwnerHint_keep _ _ _ h0).2.2.2).trans
          (__DADiskSetOwnerDowngrades_downgrade _ (by simpa using hcond)).2⟩
    · intro hc1 hc2
      refine ⟨((__DADiskSetOwnerHint_keep _ _ _ h0).2.2.1).trans ?_,
        ((__DADiskSetOwnerHint_keep _ _ _ h0).2.2.2).trans ?_⟩
      · exact ((__DADiskSetOwnerDowngrades_keep _ (by simpa using hc1)
          (by simpa using hc2)).1).trans (by simp)
      · exact ((__DADiskSetOwnerDowngrades_keep _ (by simpa using hc1)
          (by simpa using hc2)).2).trans (by simp)

theorem DADiskCreateFromIOMedia_success (env : IOMediaEnv) (disk : Disk)
    (h : DADiskCreateFromIOMedia env = some disk) :
    ∃ properties device,
      env.properties = some properties
      ∧ env.device = some device
      ∧ (∃ o, properties.getValue kIOBSDNameKey = some o ∧ (asCFString o).isSome)
      ∧ MediaRequiredPresent env properties
      ∧ DeviceRequiredPresent device
      ∧ disk._state = []
      ∧ disk._serialization = none
      ∧ disk._options = __DADiskEjectUponLogoutOptions device.ejectUponLogoutHint
          (__DADiskMountAutomaticOptions env.autodiskmountHint [])
      ∧ disk._description.getValue kDADiskDescriptionDeviceGUIDKey
          = (match device.guid with
              | some guidNumber =>
                  some (CFValue.data (OSSwapHostToBigInt64Bytes (toUInt64 guidNumber)))
              | none => none)
      ∧ (∀ uid user, device.ownerUID = some uid → env.getpwuid uid = some user →
          disk._userEUID = user.pw_uid ∧ disk._userEGID = user.pw_gid
          ∧ disk._userRUID = user.pw_uid ∧ disk._userRGID = user.pw_gid)
      ∧ ((match device.ownerUID with
          | some uid => env.getpwuid uid
          | none => none) = none →
          disk._userEUID = ___UID_ROOT ∧ disk._userEGID = ___GID_ADMIN
          ∧ ((disk._description.getValue kDADiskDescriptionMediaRemovableKey
                = some (CFValue.boolean true)
              ∨ disk._description.getValue kDADiskDescriptionDeviceInternalKey
                = some (CFValue.boolean false)) →
              disk._userRUID = ___UID_UNKNOWN ∧ disk._userRGID = ___GID_UNKNOWN)
          ∧ (disk._description.getValue kDADiskDescriptionMediaRemovableKey
                ≠ some (CFValue.boolean true) →
              disk._description.getValue kDADiskDescriptionDeviceInternalKey
                ≠ some (CFValue.boolean false) →
              disk._userRUID = ___UID_ROOT ∧ disk._userRGID = ___GID_ADMIN)) := by
  simp only [DADiskCreateFromIOMedia] at h
  split at h
  · exact Option.noConfusion h
  rename_i properties hprops
  split at h
  · exact Option.noConfusion h
  rename_i bsdNameObject hbsd
  split at h
  · exact Option.noConfusion h
  rename_i name hnm
  split at h
  · exact Option.noConfusion h
  rename_i dmid hmf
  split at h
  · exact Option.noConfusion h
  rename_i device hdev
  obtain ⟨hmReq, hmState, hmOpt, hmSer, hmMode, hmEGID, hmEUID, hmRGID, hmRUID, hmGUID⟩ :=
    __DADiskAddMediaFacts_success _ _ _ _ hmf
  obtain ⟨hdReq, hdState, hdSer, hdOpt, hdGUID, hdOver, hdKeep⟩ :=
    __DADiskAddDeviceFacts_success _ _ _ _ h
  have hmid_options : dmid._options = [] := hmOpt.trans (by simp)
  refine ⟨properties, device, hprops, hdev,
    ⟨bsdNameObject, hbsd, Option.isSome_iff_exists.mpr ⟨_, hnm⟩⟩,
    hmReq, hdReq,
    hdState.trans (hmState.trans (by simp)),
    hdSer.trans (hmSer.trans (by simp)),
    hdOpt.trans (by rw [hmid_options]),
    ?_, hdOver, ?_⟩
  · rw [hdGUID]
    cases device.guid with
    | some guidNumber => rfl
    | none =>
        rw [hmGUID]
        simp
  · intro h0
    obtain ⟨hE, hG, hDown, hDef⟩ := hdKeep h0
    refine ⟨hE.trans (hmEUID.trans (by simp)), hG.trans (hmEGID.trans (by simp)),
      hDown, ?_⟩
    intro hc1 hc2
    exact ⟨((hDef hc1 hc2).1).trans (hmRUID.trans (by simp)),
      ((hDef hc1 hc2).2).trans (hmRGID.trans (by simp))⟩

theorem DADiskCreateFromVolumePath_success (env : VolumePathEnv) (disk : Disk)
    (h : DADiskCreateFromVolumePath env = some disk) :
    env.path.isSome
    ∧ env.fsrep.isSome
    ∧ env.statfs.isSome
    ∧ disk._state = [DADiskStateFlag.kDADiskStateStagedProbe,
        DADiskStateFlag.kDADiskStateStagedPeek,
        DADiskStateFlag.kDADiskStateStagedRepair,
        DADiskStateFlag.kDADiskStateStagedApprove,
        DADiskStateFlag.kDADiskStateStagedAuthorize,
        DADiskStateFlag.kDADiskStateStagedMount] := by
  simp only [DADiskCreateFromVolumePath] at h
  split at h
  · exact Option.noConfusion h
  rename_i path hpath
  split at h
  · exact Option.noConfusion h
  rename_i fsrep hfsrep
  split at h
  · exact Option.noConfusion h
  rename_i fs hstat
  rw [Option.some.injEq] at h
  subst h
  refine ⟨Option.isSome_iff_exists.mpr ⟨_, hpath⟩,
    Option.isSome_iff_exists.mpr ⟨_, hfsrep⟩,
    Option.isSome_iff_exists.mpr ⟨_, hstat⟩, ?_⟩
  repeat' split
  all_goals simp

theorem take_min_length (l : List Nat) (n : Nat) :
    l.take (min l.length n) = l.take n := by
  rcases Nat.le_total l.length n with h | h
  · rw [min_eq_left h, List.take_length, List.take_of_length_le h]
  · rw [min_eq_right h]

/-- Claim C1: `__DADiskEqual` returns true exactly when the two disks'
id byte sequences (NUL-free C strings) are equal, and `__DADiskHash`
depends only on the first `MIN( strlen, 16 )` bytes of the id — two
disks agreeing on their first 16 id bytes hash alike under any
`CFHashBytes`. -/
theorem equal_iff_id_and_hash_take16 :
    (∀ disk1 disk2 : Disk, 0 ∉ disk1._id → 0 ∉ disk2._id →
        (__DADiskEqual disk1 disk2 = true ↔ disk1._id = disk2._id))
    ∧ (∀ (CFHashBytes : List Nat → Nat) (disk1 disk2 : Disk),
        disk1._id.take 16 = disk2._id.take 16 →
        __DADiskHash CFHashBytes disk1 = __DADiskHash CFHashBytes disk2) := by
  constructor
  · intro disk1 disk2 h1 h2
    simp only [__DADiskEqual, beq_iff_eq]
    exact strcmp_eq_zero_iff _ _ h1 h2
  · intro CFHashBytes disk1 disk2 h
    simp only [__DADiskHash, take_min_length, h]

/-- Witness for C1 at two concrete disks with the same id bytes and a
concrete hash function. -/
theorem equal_iff_id_and_hash_take16_witness :
    (__DADiskEqual (__DADiskCreate (cstr "/dev/disk2"))
        (__DADiskCreate (cstr "/dev/disk2")) = true)
    ∧ __DADiskHash List.length (__DADiskCreate (cstr "/dev/disk1234567890a"))
        = __DADiskHash List.length (__DADiskCreate (cstr "/dev/disk1234567890b")) := by
  refine ⟨?_, ?_⟩
  · exact (equal_iff_id_and_hash_take16.1 (__DADiskCreate (cstr "/dev/disk2"))
      (__DADiskCreate (cstr "/dev/disk2")) (by decide) (by decide)).mpr rfl
  · exact equal_iff_id_and_hash_take16.2 List.length
      (__DADiskCreate (cstr "/dev/disk1234567890a"))
      (__DADiskCreate (cstr "/dev/disk1234567890b")) (by decide)

/-- Claim C2: the serialization cache is exact or absent, and the
operations keep it so: `DADiskSetDescription` (setting or removing a
key) always clears the cache and preserves the invariant;
`DADiskGetSerialization` returns the cached value untouched when one is
present, computes and stores the encoding of the current description
when none is, and — whenever the invariant holds on entry — returns
exactly the encoding of the current description, never a stale one. -/
theorem serialization_cache_exact (ser : CFDict → List Nat) (disk : Disk)
    (description : String) (value : Option CFValue) :
    ((DADiskSetDescription disk description value)._serialization = none)
    ∧ SerializationCacheExact ser (DADiskSetDescription disk description value)
    ∧ (∀ s, disk._serialization = some s → DADiskGetSerialization ser disk = (disk, s))
    ∧ (disk._serialization = none →
        DADiskGetSerialization ser disk
          = ({ disk with _serialization := some (ser disk._description) },
             ser disk._description))
    ∧ (SerializationCacheExact ser disk →
        (DADiskGetSerialization ser disk).2 = ser disk._description
        ∧ (DADiskGetSerialization ser disk).1._description = disk._description
        ∧ SerializationCacheExact ser (DADiskGetSerialization ser disk).1) := by
  refine ⟨?_, ?_, ?_, ?_, ?_⟩
  · cases value <;> rfl
  · intro s hs
    cases value <;> simp [DADiskSetDescription] at hs
  · intro s hs
    simp [DADiskGetSerialization, hs]
  · intro hs
    simp [DADiskGetSerialization, hs]
  · intro hex
    cases hs : disk._serialization with
    | none =>
        refine ⟨?_, ?_, ?_⟩
        · simp [DADiskGetSerialization, hs]
        · simp [DADiskGetSerialization, hs]
        · intro s hsome
          simp [DADiskGetSerialization, hs] at hsome ⊢
          exact hsome.symm
    | some s =>
        have hse := hex s hs
        refine ⟨?_, ?_, ?_⟩
        · simp [DADiskGetSerialization, hs, hse]
        · simp [DADiskGetSerialization, hs]
        · intro s2 hsome
          simp [DADiskGetSerialization, hs] at hsome ⊢
          rw [hsome] at hs
          exact hex s2 hs

/-- Witness for C2 at a concrete serializer, disk, key and value. -/
theorem serialization_cache_exact_witness :
    ((DADiskSetDescription (__DADiskCreate (cstr "/dev/disk2")) "DAVolumeName"
        (some (CFValue.string "Macintosh HD")))._serialization = none)
    ∧ ((DADiskGetSerialization (fun _ => [7]) (__DADiskCreate (cstr "/dev/disk2"))).2
        = [7]) := by
  have h := serialization_cache_exact (fun _ => [7]) (__DADiskCreate (cstr "/dev/disk2"))
    "DAVolumeName" (some (CFValue.string "Macintosh HD"))
  refine ⟨h.1, ?_⟩
  have h5 := h.2.2.2.2 (fun s hs => by simp [__DADiskCreate] at hs)
  exact h5.1

/-- Claim C4: `DADiskMatch` is vacuously true on the empty match
dictionary; an ordinary (non-`kIOPropertyMatchKey`) entry whose key is
absent from the disk's description, or whose stored value differs from
the match value, forces the result false; and a true result means every
entry of the match dictionary matched. -/
theorem match_all_semantics :
    (∀ (svc : Option CFValue → Bool) (disk : Disk),
        DADiskMatch svc disk CFDict.nil = true)
    ∧ (∀ (svc : Option CFValue → Bool) (disk : Disk) (match0 : CFDict)
        (key : String) (value : CFValue), (key, value) ∈ match0.toList →
        key ≠ kIOPropertyMatchKey →
        (disk._description.getValue key = none
          ∨ ∃ c, disk._description.getValue key = some c ∧ value ≠ c) →
        DADiskMatch svc disk match0 = false)
    ∧ (∀ (svc : Option CFValue → Bool) (disk : Disk) (match0 : CFDict),
        DADiskMatch svc disk match0 = true →
        ∀ key value, (key, value) ∈ match0.toList →
          __DADiskMatchOne svc disk key value = true) := by
  refine ⟨?_, ?_, ?_⟩
  · intro svc disk
    rfl
  · intro svc disk match0 key value hmem hkey hbad
    rw [← Bool.not_eq_true, DADiskMatch, CFDict.all_iff]
    intro hall
    have h1 := hall (key, value) hmem
    rw [__DADiskMatchOne] at h1
    simp only [hkey, if_false] at h1
    rcases hbad with hnone | ⟨c, hc, hne⟩
    · rw [hnone] at h1
      simp at h1
    · rw [hc] at h1
      simp only [CFValue.beq_iff_val] at h1
      exact hne h1
  · intro svc disk match0 hm key value hmem
    rw [DADiskMatch, CFDict.all_iff] at hm
    exact hm (key, value) hmem

/-- Witness for C4: the empty dictionary matches; a concrete mismatched
entry refutes; a concrete successful match certifies every entry. -/
theorem match_all_semantics_witness :
    (DADiskMatch (fun _ => false) (__DADiskCreate (cstr "/dev/disk2")) CFDict.nil = true)
    ∧ (DADiskMatch (fun _ => false) (__DADiskCreate (cstr "/dev/disk2"))
        (CFDict.cons "DAVolumeName" (CFValue.string "X") CFDict.nil) = false)
    ∧ (__DADiskMatchOne (fun _ => false) (__DADiskCreate (cstr "/dev/disk2"))
        _kDADiskIDKey (CFValue.data (cstr "/dev/disk2" ++ [0])) = true) := by
  refine ⟨?_, ?_, ?_⟩
  · exact match_all_semantics.1 (fun _ => false) (__DADiskCreate (cstr "/dev/disk2"))
  · exact match_all_semantics.2.1 (fun _ => false) (__DADiskCreate (cstr "/dev/disk2"))
      (CFDict.cons "DAVolumeName" (CFValue.string "X") CFDict.nil)
      "DAVolumeName" (CFValue.string "X") (by decide) (by decide) (by left; decide)
  · exact match_all_semantics.2.2 (fun _ => false) (__DADiskCreate (cstr "/dev/disk2"))
      (CFDict.cons _kDADiskIDKey (CFValue.data (cstr "/dev/disk2" ++ [0])) CFDict.nil)
      (by decide) _kDADiskIDKey (CFValue.data (cstr "/dev/disk2" ++ [0])) (by decide)

/-- Claim C10: on the special `kIOPropertyMatchKey` entry,
`__DADiskMatch` hands the disk's own stored description value under
that key (possibly absent) to the live registry predicate; the value
supplied in the match dictionary is never consulted — the result is the
same for every match value. -/
theorem property_match_uses_stored_value :
    ∀ (svc : Option CFValue → Bool) (disk : Disk) (value : CFValue),
      __DADiskMatchOne svc disk kIOPropertyMatchKey value
        = svc (disk._description.getValue kIOPropertyMatchKey)
      ∧ DADiskMatch svc disk
          (CFDict.cons kIOPropertyMatchKey value CFDict.nil)
        = svc (disk._description.getValue kIOPropertyMatchKey) := by
  intro svc disk value
  constructor
  · simp [__DADiskMatchOne]
  · simp [DADiskMatch, CFDict.all, __DADiskMatchOne]

/-- Claim C3: for every disk built from a hardware registry entry, the
ownership cascade holds: with an explicit `"owner-uid"` hint whose
`getpwuid` lookup succeeds, both real and effective user/group are the
resolved identity, overriding the downgrades; otherwise the effective
identity stays the administrative default, the real identity is the
unknown identity when the media is removable or the device-internal
fact is present and false, and stays the administrative default when
neither downgrade applies. -/
theorem ownership_cascade (env : IOMediaEnv) (disk : Disk) (device : IODeviceEnv)
    (h : DADiskCreateFromIOMedia env = some disk) (hdev : env.device = some device) :
    (∀ uid user, device.ownerUID = some uid → env.getpwuid uid = some user →
        disk._userEUID = user.pw_uid ∧ disk._userEGID = user.pw_gid
        ∧ disk._userRUID = user.pw_uid ∧ disk._userRGID = user.pw_gid)
    ∧ ((match device.ownerUID with
        | some uid => env.getpwuid uid
        | none => none) = none →
        disk._userEUID = ___UID_ROOT ∧ disk._userEGID = ___GID_ADMIN
        ∧ ((disk._description.getValue kDADiskDescriptionMediaRemovableKey
              = some (CFValue.boolean true)
            ∨ disk._description.getValue kDADiskDescriptionDeviceInternalKey
              = some (CFValue.boolean false)) →
            disk._userRUID = ___UID_UNKNOWN ∧ disk._userRGID = ___GID_UNKNOWN)
        ∧ (disk._description.getValue kDADiskDescriptionMediaRemovableKey
              ≠ some (CFValue.boolean true) →
            disk._description.getValue kDADiskDescriptionDeviceInternalKey
              ≠ some (CFValue.boolean false) →
            disk._userRUID = ___UID_ROOT ∧ disk._userRGID = ___GID_ADMIN)) := by
  obtain ⟨p, dev2, hp, hdev2, _, _, _, _, _, _, _, hover, hkeep⟩ :=
    DADiskCreateFromIOMedia_success env disk h
  rw [hdev] at hdev2
  cases hdev2
  exact ⟨hover, hkeep⟩

/-- Witness for C3: the sample hardware environment (no owner hints,
internal fixed media) yields the administrative default identity. -/
theorem ownership_cascade_witness :
    ((DADiskCreateFromIOMedia sampleIOMediaEnv).getD (__DADiskCreate []))._userRUID
        = ___UID_ROOT
    ∧ ((DADiskCreateFromIOMedia sampleIOMediaEnv).getD (__DADiskCreate []))._userEUID
        = ___UID_ROOT := by
  have h := ownership_cascade sampleIOMediaEnv
    ((DADiskCreateFromIOMedia sampleIOMediaEnv).getD (__DADiskCreate []))
    sampleDevice (by decide) rfl
  have hk := h.2 rfl
  exact ⟨(hk.2.2.2 (by decide) (by decide)).1, hk.1⟩

/-- Claim C5: hardware construction returns null whenever any required
fact is missing — an unreadable media property table, a missing or
non-string device node name, any missing required media fact (block
size, major/minor, unit, content, ejectable, icon, DVD/CD type when the
media conforms to that class, leaf, name, registry path, removable,
size, whole, writable), no block-storage-device ancestor, or missing
required device facts (property table, device path, bus name/path when
a bus exists). -/
theorem hardware_requires_all_facts (env : IOMediaEnv)
    (hmiss : RequiredFactMissing env) :
    DADiskCreateFromIOMedia env = none := by
  cases hres : DADiskCreateFromIOMedia env with
  | none => rfl
  | some disk =>
      exfalso
      obtain ⟨p, dev, hp, hdev, ⟨o, ho, hos⟩, hreq, hdreq, _⟩ :=
        DADiskCreateFromIOMedia_success env disk hres
      rcases hmiss with hnone | ⟨p2, hp2, hbad⟩
      · rw [hp] at hnone
        exact Option.noConfusion hnone
      · rw [hp] at hp2
        cases hp2
        rcases hbad with hstr | hreqbad | hdevnone | ⟨dev2, hdev2, hdevbad⟩
        · rw [hstr o ho] at hos
          simp at hos
        · exact hreqbad hreq
        · rw [hdev] at hdevnone
          exact Option.noConfusion hdevnone
        · rw [hdev] at hdev2
          cases hdev2
          exact hdevbad hdreq

/-- Witness for C5: an environment whose media property table is
unreadable yields null. -/
theorem hardware_requires_all_facts_witness :
    DADiskCreateFromIOMedia { sampleIOMediaEnv with properties := none } = none :=
  hardware_requires_all_facts { sampleIOMediaEnv with properties := none } (Or.inl rfl)

/-- Claim C6: on every hardware-built disk, `kDADiskOptionMountAutomatic`
is set exactly when the `"autodiskmount"` hint (absent or boolean) is
not present-and-false; when the hint is present and true,
`kDADiskOptionMountAutomaticNoDefer` is also set; and
`kDADiskOptionEjectUponLogout` is set only if the `"eject-upon-logout"`
hint is present and true. -/
theorem mount_options (env : IOMediaEnv) (disk : Disk) (device : IODeviceEnv)
    (h : DADiskCreateFromIOMedia env = some disk) (hdev : env.device = some device) :
    ((env.autodiskmountHint = none
        ∨ ∃ b, env.autodiskmountHint = some (CFValue.boolean b)) →
      (DADiskGetOption disk DADiskOptionFlag.kDADiskOptionMountAutomatic = true
        ↔ env.autodiskmountHint ≠ some (CFValue.boolean false)))
    ∧ (env.autodiskmountHint = some (CFValue.boolean true) →
        DADiskGetOption disk DADiskOptionFlag.kDADiskOptionMountAutomaticNoDefer = true)
    ∧ (DADiskGetOption disk DADiskOptionFlag.kDADiskOptionEjectUponLogout = true →
        device.ejectUponLogoutHint = some (CFValue.boolean true)) := by
  obtain ⟨p, dev2, hp, hdev2, _, _, _, _, _, hopts, _, _, _⟩ :=
    DADiskCreateFromIOMedia_success env disk h
  rw [hdev] at hdev2
  cases hdev2
  refine ⟨?_, ?_, ?_⟩
  · rintro (hnone | ⟨b, hb⟩)
    · simp only [DADiskGetOption, hopts, hnone, __DADiskMountAutomaticOptions,
        __DADiskEjectUponLogoutOptions]
      repeat' split
      all_goals simp_all
    · cases b with
      | true =>
          simp only [DADiskGetOption, hopts, hb, __DADiskMountAutomaticOptions,
            __DADiskEjectUponLogoutOptions]
          repeat' split
          all_goals simp_all
      | false =>
          simp only [DADiskGetOption, hopts, hb, __DADiskMountAutomaticOptions,
            __DADiskEjectUponLogoutOptions]
          repeat' split
          all_goals simp_all
  · intro hb
    simp only [DADiskGetOption, hopts, hb, __DADiskMountAutomaticOptions,
      __DADiskEjectUponLogoutOptions]
    repeat' split
    all_goals simp_all
  · intro hset
    simp only [DADiskGetOption, hopts, __DADiskMountAutomaticOptions,
      __DADiskEjectUponLogoutOptions] at hset
    revert hset
    repeat' split
    all_goals simp_all

/-- Witness for C6 at the sample hardware environment: no
`"autodiskmount"` hint, so `kDADiskOptionMountAutomatic` is set. -/
theorem mount_options_witness :
    DADiskGetOption ((DADiskCreateFromIOMedia sampleIOMediaEnv).getD (__DADiskCreate []))
      DADiskOptionFlag.kDADiskOptionMountAutomatic = true := by
  have h := mount_options sampleIOMediaEnv
    ((DADiskCreateFromIOMedia sampleIOMediaEnv).getD (__DADiskCreate []))
    sampleDevice (by decide) rfl
  exact (h.1 (Or.inl rfl)).mpr (by decide)

/-- Claim C7: volume-path construction returns null — not a hard
error — when the path is absent, when it has no filesystem
representation, or when mount statistics are unavailable; a disk is
returned only when the mount-statistics query succeeded. -/
theorem volume_path_no_mount_returns_null (env : VolumePathEnv) :
    (env.path = none → DADiskCreateFromVolumePath env = none)
    ∧ (env.fsrep = none → DADiskCreateFromVolumePath env = none)
    ∧ (env.statfs = none → DADiskCreateFromVolumePath env = none)
    ∧ (∀ disk, DADiskCreateFromVolumePath env = some disk → env.statfs.isSome) := by
  refine ⟨?_, ?_, ?_, ?_⟩
  · intro h
    simp [DADiskCreateFromVolumePath, h]
  · intro h
    cases hp : env.path <;> simp [DADiskCreateFromVolumePath, hp, h]
  · intro h
    cases hp : env.path <;> cases hf : env.fsrep <;>
      simp [DADiskCreateFromVolumePath, hp, hf, h]
  · intro disk h
    exact (DADiskCreateFromVolumePath_success env disk h).2.2.1

/-- Witness for C7: a null path, a failing filesystem representation,
and failing mount statistics each yield null; the sample environment
with statistics yields a disk. -/
theorem volume_path_no_mount_returns_null_witness :
    DADiskCreateFromVolumePath
        { path := none, fsrep := none, statfs := none, getpwuid := fun _ => none } = none
    ∧ DADiskCreateFromVolumePath { sampleVolumeEnv with statfs := none } = none := by
  constructor
  · exact (volume_path_no_mount_returns_null
      { path := none, fsrep := none, statfs := none, getpwuid := fun _ => none }).1 rfl
  · exact (volume_path_no_mount_returns_null
      { sampleVolumeEnv with statfs := none }).2.2.1 rfl

/-- Claim C8: every disk built by volume-path construction has all six
staging flags (`StagedProbe` through `StagedMount`) set at creation,
while every disk built by hardware construction has every staging flag
clear. -/
theorem staging_flags_volume_set_hardware_clear :
    (∀ (env : VolumePathEnv) (disk : Disk),
        DADiskCreateFromVolumePath env = some disk →
        ∀ s, DADiskGetState disk s = true)
    ∧ (∀ (env : IOMediaEnv) (disk : Disk),
        DADiskCreateFromIOMedia env = some disk →
        ∀ s, DADiskGetState disk s = false) := by
  constructor
  · intro env disk h s
    have hst := (DADiskCreateFromVolumePath_success env disk h).2.2.2
    rw [DADiskGetState, hst]
    cases s <;> rfl
  · intro env disk h s
    obtain ⟨p, dev, _, _, _, _, _, hstate, _⟩ :=
      DADiskCreateFromIOMedia_success env disk h
    rw [DADiskGetState, hstate]
    rfl

/-- Witness for C8 at the sample environments. -/
theorem staging_flags_volume_set_hardware_clear_witness :
    DADiskGetState ((DADiskCreateFromVolumePath sampleVolumeEnv).getD (__DADiskCreate []))
      DADiskStateFlag.kDADiskStateStagedMount = true
    ∧ DADiskGetState ((DADiskCreateFromIOMedia sampleIOMediaEnv).getD (__DADiskCreate []))
      DADiskStateFlag.kDADiskStateStagedMount = false := by
  constructor
  · exact staging_flags_volume_set_hardware_clear.1 sampleVolumeEnv
      ((DADiskCreateFromVolumePath sampleVolumeEnv).getD (__DADiskCreate []))
      (by decide) DADiskStateFlag.kDADiskStateStagedMount
  · exact staging_flags_volume_set_hardware_clear.2 sampleIOMediaEnv
      ((DADiskCreateFromIOMedia sampleIOMediaEnv).getD (__DADiskCreate []))
      (by decide) DADiskStateFlag.kDADiskStateStagedMount

/-- Claim C9: on every hardware-built disk whose device ancestry
carries a 64-bit GUID number, the description's device-GUID entry is a
byte blob of exactly 8 bytes holding the value byte-swapped from host
order to big-endian (reading the 8 bytes back big-endian recovers the
64-bit value); with no GUID the entry is absent. -/
theorem device_guid_big_endian_blob (env : IOMediaEnv) (disk : Disk)
    (device : IODeviceEnv)
    (h : DADiskCreateFromIOMedia env = some disk) (hdev : env.device = some device) :
    (∀ guidNumber, device.guid = some guidNumber →
        disk._description.getValue kDADiskDescriptionDeviceGUIDKey
          = some (CFValue.data (OSSwapHostToBigInt64Bytes (toUInt64 guidNumber)))
        ∧ (OSSwapHostToBigInt64Bytes (toUInt64 guidNumber)).length = 8
        ∧ beFoldBytes (OSSwapHostToBigInt64Bytes (toUInt64 guidNumber))
            = toUInt64 guidNumber)
    ∧ (device.guid = none →
        disk._description.getValue kDADiskDescriptionDeviceGUIDKey = none) := by
  obtain ⟨p, dev2, _, hdev2, _, _, _, _, _, _, hguid, _, _⟩ :=
    DADiskCreateFromIOMedia_success env disk h
  rw [hdev] at hdev2
  cases hdev2
  constructor
  · intro guidNumber hg
    simp only [hg] at hguid
    exact ⟨hguid, rfl,
      beFoldBytes_OSSwapHostToBigInt64Bytes _ (toUInt64_lt guidNumber)⟩
  · intro hg
    simp only [hg] at hguid
    exact hguid

/-- Witness for C9: the sample device GUID `258` is stored as the
big-endian 8-byte blob `00 00 00 00 00 00 01 02`. -/
theorem device_guid_big_endian_blob_witness :
    ((DADiskCreateFromIOMedia sampleIOMediaEnv).getD
        (__DADiskCreate []))._description.getValue kDADiskDescriptionDeviceGUIDKey
      = some (CFValue.data [0, 0, 0, 0, 0, 0, 1, 2]) := by
  have h := device_guid_big_endian_blob sampleIOMediaEnv
    ((DADiskCreateFromIOMedia sampleIOMediaEnv).getD (__DADiskCreate []))
    sampleDevice (by decide) rfl
  rw [(h.1 258 rfl).1]
  decide

end DiskArbitration
